import Mathlib

/-!
Verification development for the BRKOPS-2585 network-change pipeline.

Shallow embedding of the repository code that the claims concern:
  * backend/services/config_builder.py  (config text parser and change builders)
  * backend/services/device_resolver.py (target device resolution)
  * backend/tasks/pipeline.py           (orchestrator loops and monitoring diff)
  * backend/routers/operations.py       (approval and rollback endpoints)

Python strings are modelled by Lean `String`; Python dicts (insertion ordered)
by association lists; Python `None`-able values by `Option`; code that can
raise by `Option`/`Except` results.  Machine integers in this code are
arbitrary-precision Python ints obtained from digit runs, modelled by `Nat`.
-/

-- =========================================================================
-- Python string primitives
-- =========================================================================

/-- Whitespace characters as matched by the Python regex class backslash-s and
by str.strip / str.split on the ASCII repertoire (space, tab, newline,
carriage return, vertical tab, form feed).  Python additionally treats some
rare Unicode code points as whitespace; none of the claims depend on those. -/
def pyIsSpace (c : Char) : Bool :=
  c = ' ' || c = '\t' || c = '\n' || c = '\r' || c = '\x0b' || c = '\x0c'

/-- Characters accepted by Python str.isdigit on the repertoire relevant to
this development: the ASCII decimal digits plus the superscript digits.
Full Unicode str.isdigit accepts further non-decimal digit characters; they
all behave like the superscripts here (isdigit-true but rejected by int()). -/
def pyIsDigitChar (c : Char) : Bool :=
  c.isDigit || c = '¹' || c = '²' || c = '³'

/-- Python str.strip() restricted to a character list. -/
def pyStripData (l : List Char) : List Char :=
  ((l.dropWhile pyIsSpace).reverse.dropWhile pyIsSpace).reverse

/-- Python str.strip(). -/
def pyStrip (s : String) : String := String.mk (pyStripData s.data)

/-- Python str.lower() (ASCII case mapping, which is all the source uses). -/
def pyLower (s : String) : String := String.mk (s.data.map Char.toLower)

/-- Python str.upper() (ASCII case mapping). -/
def pyUpper (s : String) : String := String.mk (s.data.map Char.toUpper)

/-- Split a character list on a separator character; keeps empty fields,
like Python str.split(sep). -/
def splitOnChar (sep : Char) : List Char → List (List Char)
  | [] => [[]]
  | c :: cs =>
    let rest := splitOnChar sep cs
    if c = sep then [] :: rest
    else
      match rest with
      | [] => [[c]]
      | r :: rs => (c :: r) :: rs

/-- Python str.split(chr(10)): split a string into lines. -/
def pySplitLines (s : String) : List String :=
  (splitOnChar '\n' s.data).map String.mk

/-- Helper for whitespace splitting, accumulating the current token. -/
def pySplitWsAux : List Char → List Char → List (List Char)
  | [], acc => if acc.isEmpty then [] else [acc.reverse]
  | c :: cs, acc =>
    if pyIsSpace c then
      if acc.isEmpty then pySplitWsAux cs []
      else acc.reverse :: pySplitWsAux cs []
    else pySplitWsAux cs (c :: acc)

/-- Python str.split() with no argument: split on whitespace runs and drop
empty fields. -/
def pySplitWs (s : String) : List String :=
  (pySplitWsAux s.data []).map String.mk

/-- Python sep.join(xs). -/
def pyJoin (sep : String) : List String → String
  | [] => ""
  | [x] => x
  | x :: xs => x ++ sep ++ pyJoin sep xs

/-- Python s.startswith(p). -/
def pyStartsWith (s p : String) : Bool := p.data.isPrefixOf s.data

/-- Python int() applied to the token strings this code passes to it.
Succeeds exactly on nonempty runs of ASCII decimal digits.  Real int()
additionally accepts signs, surrounding whitespace and non-ASCII decimal
digits, none of which these call sites can receive from their guards, and
rejects non-decimal digit characters such as the superscript digits. -/
def pyInt? (s : String) : Option Nat :=
  if s.data ≠ [] ∧ s.data.all Char.isDigit then
    some (s.data.foldl (fun acc c => 10 * acc + (c.toNat - 48)) 0)
  else none

/-- Lexicographic less-or-equal on code points, the order Python uses to
compare str values (sufficient for the label sorting in this code). -/
def pyStrLeData : List Char → List Char → Bool
  | [], _ => true
  | _ :: _, [] => false
  | c :: cs, d :: ds =>
    if c.toNat < d.toNat then true
    else if c.toNat = d.toNat then pyStrLeData cs ds
    else false

/-- Python str less-or-equal. -/
def pyStrLe (a b : String) : Bool := pyStrLeData a.data b.data

/-- Truthiness of an optional Python string: present and nonempty. -/
def truthyS (o : Option String) : Bool := (o.getD "") ≠ ""

-- =========================================================================
-- Association lists (Python dict: insertion ordered, unique keys)
-- =========================================================================

/-- Python d.get(k) / d[k]: first binding of a key. -/
def alistGet {κ ν : Type} [DecidableEq κ] (k : κ) : List (κ × ν) → Option ν
  | [] => none
  | (k2, v) :: rest => if k2 = k then some v else alistGet k rest

/-- Python d[k] = v: replace in place if the key exists (keeping its
position, as dict update does), otherwise append. -/
def alistSet {κ ν : Type} [DecidableEq κ] (k : κ) (v : ν) : List (κ × ν) → List (κ × ν)
  | [] => [(k, v)]
  | (k2, v2) :: rest =>
    if k2 = k then (k2, v) :: rest else (k2, v2) :: alistSet k v rest

/-- Mutation of the value stored under a key (models mutating the object a
Python variable and the dict entry both reference). -/
def alistModify {κ ν : Type} [DecidableEq κ] (k : κ) (f : ν → ν) : List (κ × ν) → List (κ × ν)
  | [] => []
  | (k2, v) :: rest =>
    if k2 = k then (k2, f v) :: rest else (k2, v) :: alistModify k f rest

-- =========================================================================
-- config_builder.py: data structures
-- =========================================================================

/-- InterfaceConfig dataclass. -/
structure InterfaceConfig where
  name : String
  ip_address : Option String := none
  subnet_mask : Option String := none
  description : Option String := none
  shutdown : Bool := false
  ospf_process_id : Option Nat := none
  ospf_area : Option Nat := none
  ospf_network_type : Option String := none
  acl_in : Option String := none
  acl_out : Option String := none
deriving Repr, DecidableEq

/-- OSPFNetworkStatement dataclass. -/
structure OSPFNetworkStatement where
  network : String
  wildcard : String
  area : Nat
deriving Repr, DecidableEq

/-- OSPFProcessConfig dataclass. -/
structure OSPFProcessConfig where
  process_id : Nat
  router_id : Option String := none
  network_statements : List OSPFNetworkStatement := []
  passive_interfaces : List String := []
deriving Repr, DecidableEq

/-- UserConfig dataclass. -/
structure UserConfig where
  username : String
  privilege : Option Nat := none
  secret_type : Option Nat := none
  secret_hash : Option String := none
deriving Repr, DecidableEq

/-- AccessListRule dataclass. -/
structure AccessListRule where
  sequence : Option Nat := none
  action : String := "permit"
  protocol : String := "ip"
  source : String := "any"
  destination : String := "any"
  extras : String := ""
deriving Repr, DecidableEq

/-- AccessListConfig dataclass. -/
structure AccessListConfig where
  name : String
  acl_type : String := "extended"
  rules : List AccessListRule := []
deriving Repr, DecidableEq

/-- ParsedConfig dataclass. -/
structure ParsedConfig where
  hostname : String := "Router"
  interfaces : List (String × InterfaceConfig) := []
  ospf_processes : List (Nat × OSPFProcessConfig) := []
  users : List (String × UserConfig) := []
  enable_secret_exists : Bool := false
  enable_secret_type : Option Nat := none
  access_lists : List (String × AccessListConfig) := []
  warnings : List String := []
deriving Repr, DecidableEq

/-- Entry of ConfigChangeResult.affected_interfaces (a dict in the source;
the legacy per-interface path leaves network_statement absent). -/
structure AffectedInterface where
  name : String
  ip_address : Option String := none
  subnet_mask : Option String := none
  description : Option String := none
  network_statement : Option String := none
  current_area : Nat
  new_area : Nat
  ospf_network_type : Option String := none
deriving Repr, DecidableEq

/-- ConfigChangeResult dataclass. -/
structure ConfigChangeResult where
  commands : List String := []
  rollback_commands : List String := []
  warnings : List String := []
  affected_interfaces : List AffectedInterface := []
  ospf_process_id : Option Nat := none
deriving Repr, DecidableEq

-- =========================================================================
-- config_builder.py: regex patterns as anchored matchers
--
-- Every pattern in the source is used with re.match (anchored at the start,
-- trailing text ignored).  Each pattern alternates character classes with
-- their complements (nonspace after whitespace, a dot after digits, ...),
-- so greedy matching without backtracking computes the same result the
-- regex engine does; optional groups are committed when they match, which
-- is sound because no following literal can also start the skipped group.
-- =========================================================================

/-- Match a literal, returning the rest of the input. -/
def dropLit : List Char → List Char → Option (List Char)
  | [], rest => some rest
  | p :: ps, c :: cs => if c = p then dropLit ps cs else none
  | _ :: _, [] => none

/-- Match backslash-s-plus: one or more whitespace characters, greedily. -/
def dropWs1 (l : List Char) : Option (List Char) :=
  match l with
  | c :: cs => if pyIsSpace c then some (cs.dropWhile pyIsSpace) else none
  | [] => none

/-- Match a capture group of backslash-d-plus: a nonempty digit run. -/
def takeDigits1 (l : List Char) : Option (String × List Char) :=
  let ds := l.takeWhile Char.isDigit
  if ds.isEmpty then none
  else some (String.mk ds, l.dropWhile Char.isDigit)

/-- Match a capture group of backslash-S-plus: a nonempty nonspace run. -/
def takeNonSpace1 (l : List Char) : Option (String × List Char) :=
  let ds := l.takeWhile (fun c => !pyIsSpace c)
  if ds.isEmpty then none
  else some (String.mk ds, l.dropWhile (fun c => !pyIsSpace c))

/-- Match a dotted quad capture group (digits dot digits dot digits dot
digits), returning the matched text. -/
def takeDottedQuad (l : List Char) : Option (String × List Char) := do
  let (a, r) ← takeDigits1 l
  let r ← dropLit ['.'] r
  let (b, r) ← takeDigits1 r
  let r ← dropLit ['.'] r
  let (c, r) ← takeDigits1 r
  let r ← dropLit ['.'] r
  let (d, r) ← takeDigits1 r
  pure (a ++ "." ++ b ++ "." ++ c ++ "." ++ d, r)

/-- RE_HOSTNAME: anchored hostname, whitespace, nonspace capture. -/
def matchHostname (line : String) : Option String := do
  let r ← dropLit "hostname".data line.data
  let r ← dropWs1 r
  let (name, _) ← takeNonSpace1 r
  pure name

/-- RE_INTERFACE. -/
def matchInterface (line : String) : Option String := do
  let r ← dropLit "interface".data line.data
  let r ← dropWs1 r
  let (name, _) ← takeNonSpace1 r
  pure name

/-- RE_IP_ADDRESS: leading whitespace, ip address, two dotted quads. -/
def matchIpAddress (line : String) : Option (String × String) := do
  let r ← dropWs1 line.data
  let r ← dropLit "ip".data r
  let r ← dropWs1 r
  let r ← dropLit "address".data r
  let r ← dropWs1 r
  let (ip, r) ← takeDottedQuad r
  let r ← dropWs1 r
  let (mask, _) ← takeDottedQuad r
  pure (ip, mask)

/-- RE_DESCRIPTION: leading whitespace, description, rest of line. -/
def matchDescription (line : String) : Option String := do
  let r ← dropWs1 line.data
  let r ← dropLit "description".data r
  let r ← dropWs1 r
  pure (String.mk r)

/-- RE_SHUTDOWN: leading whitespace then the shutdown keyword. -/
def matchShutdown (line : String) : Bool :=
  (do
    let r ← dropWs1 line.data
    dropLit "shutdown".data r).isSome

/-- RE_OSPF_INTERFACE: ip ospf process-id area area-number. -/
def matchOspfInterface (line : String) : Option (String × String) := do
  let r ← dropWs1 line.data
  let r ← dropLit "ip".data r
  let r ← dropWs1 r
  let r ← dropLit "ospf".data r
  let r ← dropWs1 r
  let (pid, r) ← takeDigits1 r
  let r ← dropWs1 r
  let r ← dropLit "area".data r
  let r ← dropWs1 r
  let (area, _) ← takeDigits1 r
  pure (pid, area)

/-- RE_OSPF_NETWORK_TYPE. -/
def matchOspfNetworkType (line : String) : Option String := do
  let r ← dropWs1 line.data
  let r ← dropLit "ip".data r
  let r ← dropWs1 r
  let r ← dropLit "ospf".data r
  let r ← dropWs1 r
  let r ← dropLit "network".data r
  let r ← dropWs1 r
  let (t, _) ← takeNonSpace1 r
  pure t

/-- RE_ROUTER_OSPF. -/
def matchRouterOspf (line : String) : Option String := do
  let r ← dropLit "router".data line.data
  let r ← dropWs1 r
  let r ← dropLit "ospf".data r
  let r ← dropWs1 r
  let (pid, _) ← takeDigits1 r
  pure pid

/-- RE_ROUTER_ID. -/
def matchRouterId (line : String) : Option String := do
  let r ← dropWs1 line.data
  let r ← dropLit "router-id".data r
  let r ← dropWs1 r
  let (rid, _) ← takeNonSpace1 r
  pure rid

/-- RE_NETWORK_STMT: network, quad, quad, area, digits. -/
def matchNetworkStmt (line : String) : Option (String × String × String) := do
  let r ← dropWs1 line.data
  let r ← dropLit "network".data r
  let r ← dropWs1 r
  let (net, r) ← takeDottedQuad r
  let r ← dropWs1 r
  let (wild, r) ← takeDottedQuad r
  let r ← dropWs1 r
  let r ← dropLit "area".data r
  let r ← dropWs1 r
  let (area, _) ← takeDigits1 r
  pure (net, wild, area)

/-- RE_PASSIVE_INTF. -/
def matchPassiveIntf (line : String) : Option String := do
  let r ← dropWs1 line.data
  let r ← dropLit "passive-interface".data r
  let r ← dropWs1 r
  let (n, _) ← takeNonSpace1 r
  pure n

/-- Optional non-capturing group algorithm-type nonspace whitespace; commits
when it matches (no following literal starts with algorithm-type). -/
def skipAlgorithmType (r : List Char) : List Char :=
  match (do
    let r2 ← dropLit "algorithm-type".data r
    let r2 ← dropWs1 r2
    let (_, r2) ← takeNonSpace1 r2
    dropWs1 r2) with
  | some r2 => r2
  | none => r

/-- RE_ENABLE_SECRET: captures the secret type digits and the hash. -/
def matchEnableSecret (line : String) : Option (String × String) := do
  let r ← dropLit "enable".data line.data
  let r ← dropWs1 r
  let r := skipAlgorithmType r
  let r ← dropLit "secret".data r
  let r ← dropWs1 r
  let (stype, r) ← takeDigits1 r
  let r ← dropWs1 r
  let (shash, _) ← takeNonSpace1 r
  pure (stype, shash)

/-- RE_USERNAME: username, optional privilege digits, optional
algorithm-type, secret type digits, hash. -/
def matchUsername (line : String) : Option (String × Option String × String × String) := do
  let r ← dropLit "username".data line.data
  let r ← dropWs1 r
  let (uname, r) ← takeNonSpace1 r
  let r ← dropWs1 r
  let (priv, r) :=
    match (do
      let r2 ← dropLit "privilege".data r
      let r2 ← dropWs1 r2
      let (d, r2) ← takeDigits1 r2
      let r2 ← dropWs1 r2
      pure (d, r2) : Option (String × List Char)) with
    | some (d, r2) => (some d, r2)
    | none => (none, r)
  let r := skipAlgorithmType r
  let r ← dropLit "secret".data r
  let r ← dropWs1 r
  let (stype, r) ← takeDigits1 r
  let r ← dropWs1 r
  let (shash, _) ← takeNonSpace1 r
  pure (uname, priv, stype, shash)

/-- RE_ACL_NAMED: ip access-list, extended or standard, name. -/
def matchAclNamed (line : String) : Option (String × String) := do
  let r ← dropLit "ip".data line.data
  let r ← dropWs1 r
  let r ← dropLit "access-list".data r
  let r ← dropWs1 r
  let (kind, r) ←
    (match dropLit "extended".data r with
     | some r2 => some ("extended", r2)
     | none =>
       match dropLit "standard".data r with
       | some r2 => some ("standard", r2)
       | none => none)
  let r ← dropWs1 r
  let (name, _) ← takeNonSpace1 r
  pure (kind, name)

/-- RE_ACL_GROUP: ip access-group, name, in or out. -/
def matchAclGroup (line : String) : Option (String × String) := do
  let r ← dropWs1 line.data
  let r ← dropLit "ip".data r
  let r ← dropWs1 r
  let r ← dropLit "access-group".data r
  let r ← dropWs1 r
  let (name, r) ← takeNonSpace1 r
  let r ← dropWs1 r
  let (dir, _) ←
    (match dropLit "in".data r with
     | some r2 => some ("in", r2)
     | none =>
       match dropLit "out".data r with
       | some r2 => some ("out", r2)
       | none => none)
  pure (name, dir)

-- =========================================================================
-- config_builder.py: _clean_config_output
-- =========================================================================

/-- The trailing-prompt pattern (nonspace run of length at least one
followed by a hash or greater-than sign) applied to a stripped line: some
character strictly after the start of the leading nonspace run is a hash or
greater-than sign. -/
def promptMatch (stripped : String) : Bool :=
  ((stripped.data.takeWhile (fun c => !pyIsSpace c)).drop 1).any
    (fun c => c = '#' || c = '>')

/-- One step of the cleaning loop: given (in_config, accumulated lines) and
the next raw line, produce the new state or signal the early break. -/
def cleanStep (st : Bool × List String) (line : String) : Bool × List String × Bool :=
  let (in_config, acc) := st
  let stripped := pyStrip line
  if pyStartsWith stripped "Building configuration" ||
     pyStartsWith stripped "Current configuration" then
    (true, acc, false)
  else
    let in2 := if pyStartsWith stripped "!" && !in_config then true else in_config
    if in2 then
      if promptMatch stripped && !pyStartsWith stripped "!" then (in2, acc, true)
      else (in2, acc ++ [line], false)
    else (in2, acc, false)

/-- Loop of _clean_config_output with an explicit break flag. -/
def cleanLoop : Bool × List String → List String → List String
  | (_, acc), [] => acc
  | st, line :: rest =>
    let (in2, acc2, brk) := cleanStep st line
    if brk then acc2 else cleanLoop (in2, acc2) rest

/-- _clean_config_output: strip CLI preamble, prompts and trailing garbage. -/
def _clean_config_output (raw : String) : String :=
  let cleaned := cleanLoop (false, []) (pySplitLines raw)
  if cleaned ≠ [] then pyJoin "\n" cleaned else raw

-- =========================================================================
-- config_builder.py: parse_running_config
-- =========================================================================

/-- The parser's current section (top level, inside an interface block,
inside a router-ospf block, or inside a named ACL block).  The source keeps
a section string plus an object reference; the reference is always the dict
entry under the stored name, so the name suffices. -/
inductive CfgSection where
  | top
  | iface (name : String)
  | routerOspf (pid : Nat)
  | acl (name : String)
deriving Repr, DecidableEq

/-- Section exit on a lone exclamation mark or end keyword (the check at
the bottom of the parse loop, reached by lines that did not continue). -/
def sectionPop (sec : CfgSection) (line : String) : CfgSection :=
  let stripped := pyStrip line
  if stripped = "!" ∨ stripped = "end" then .top else sec

/-- Update one interface in place (models mutating the shared
InterfaceConfig object). -/
def updIface (iname : String) (f : InterfaceConfig → InterfaceConfig)
    (parsed : ParsedConfig) : ParsedConfig :=
  let ifs := alistModify iname f parsed.interfaces
  { parsed with interfaces := ifs }

/-- Update one OSPF process in place. -/
def updOspf (pid : Nat) (f : OSPFProcessConfig → OSPFProcessConfig)
    (parsed : ParsedConfig) : ParsedConfig :=
  let ps := alistModify pid f parsed.ospf_processes
  { parsed with ospf_processes := ps }

/-- Append a parsed rule to the named ACL (mutation of the shared
AccessListConfig object in the source). -/
def appendAclRule (aname : String) (rule : AccessListRule) (parsed : ParsedConfig) : ParsedConfig :=
  let als := alistModify aname (fun a => { a with rules := a.rules ++ [rule] }) parsed.access_lists
  { parsed with access_lists := als }

/-- Section-specific matchers of the parse loop (reached when no top-level
pattern matched).  Returns none where the source would raise. -/
def stepLineSection (parsed : ParsedConfig) (sec : CfgSection) (line : String) :
    Option (ParsedConfig × CfgSection) :=
  match sec with
  | .iface iname =>
    match matchIpAddress line with
    | some (ip, mask) =>
        some (updIface iname (fun i => { i with ip_address := some ip, subnet_mask := some mask }) parsed, sec)
    | none =>
    match matchDescription line with
    | some d =>
        some (updIface iname (fun i => { i with description := some (pyStrip d) }) parsed, sec)
    | none =>
    if matchShutdown line then
      some (updIface iname (fun i => { i with shutdown := true }) parsed, sec)
    else
    match matchOspfInterface line with
    | some (pidStr, areaStr) =>
        (match pyInt? pidStr, pyInt? areaStr with
         | some pid, some area =>
             some (updIface iname (fun i => { i with ospf_process_id := some pid, ospf_area := some area }) parsed, sec)
         | _, _ => none)
    | none =>
    match matchOspfNetworkType line with
    | some t =>
        some (updIface iname (fun i => { i with ospf_network_type := some t }) parsed, sec)
    | none =>
    match matchAclGroup line with
    | some (aclName, dir) =>
        if dir = "in" then
          some (updIface iname (fun i => { i with acl_in := some aclName }) parsed, sec)
        else
          some (updIface iname (fun i => { i with acl_out := some aclName }) parsed, sec)
    | none => some (parsed, sectionPop sec line)
  | .routerOspf pid =>
    match matchRouterId line with
    | some rid =>
        some (updOspf pid (fun o => { o with router_id := some rid }) parsed, sec)
    | none =>
    match matchNetworkStmt line with
    | some (net, wild, areaStr) =>
        (match pyInt? areaStr with
         | some area =>
             some (updOspf pid (fun o =>
               { o with network_statements := o.network_statements ++
                   [{ network := net, wildcard := wild, area := area }] }) parsed, sec)
         | none => none)
    | none =>
    match matchPassiveIntf line with
    | some n =>
        some (updOspf pid (fun o =>
          { o with passive_interfaces := o.passive_interfaces ++ [n] }) parsed, sec)
    | none => some (parsed, sectionPop sec line)
  | .acl aname =>
    let stripped := pyStrip line
    let parsed2res : Option ParsedConfig :=
      if stripped ≠ "" ∧ ¬ pyStartsWith stripped "!" then
        match pySplitWs stripped with
        | [] => some parsed
        | p0 :: rest =>
          if p0 = "permit" ∨ p0 = "deny" then
            let rule : AccessListRule :=
              match rest with
              | [] => { action := p0 }
              | [p1] => { action := p0, protocol := p1 }
              | [p1, p2] => { action := p0, protocol := p1, source := p2 }
              | p1 :: p2 :: d3 :: ds =>
                  { action := p0, protocol := p1, source := p2,
                    destination := pyJoin " " (d3 :: ds) }
            some (appendAclRule aname rule parsed)
          else if p0.data ≠ [] ∧ p0.data.all pyIsDigitChar then
            -- numbered entry: int(parts[0]) raises ValueError when the
            -- isdigit-true token contains a non-decimal digit character
            match pyInt? p0 with
            | none => none
            | some seqn =>
              let rule : AccessListRule :=
                match rest with
                | [] => { sequence := some seqn }
                | [p1] => { sequence := some seqn, action := p1 }
                | [p1, p2] => { sequence := some seqn, action := p1, protocol := p2 }
                | [p1, p2, p3] => { sequence := some seqn, action := p1, protocol := p2, source := p3 }
                | p1 :: p2 :: p3 :: d4 :: ds =>
                    { sequence := some seqn, action := p1, protocol := p2, source := p3,
                      destination := pyJoin " " (d4 :: ds) }
              some (appendAclRule aname rule parsed)
          else some parsed
      else some parsed
    match parsed2res with
    | none => none
    | some parsed2 => some (parsed2, sectionPop sec line)
  | .top => some (parsed, sectionPop sec line)

/-- One iteration of the parse loop over a single line, in source order:
top-level patterns first (each resets or keeps the section exactly as the
source does), then section-specific patterns, then the section-exit check.
Returns none where the source would raise an exception. -/
def stepLine (parsed : ParsedConfig) (sec : CfgSection) (line : String) :
    Option (ParsedConfig × CfgSection) :=
  match matchHostname line with
  | some name => some ({ parsed with hostname := name }, .top)
  | none =>
  match matchInterface line with
  | some iname =>
      let ifs := alistSet iname { name := iname } parsed.interfaces
      some ({ parsed with interfaces := ifs }, .iface iname)
  | none =>
  match matchRouterOspf line with
  | some pidStr =>
      (match pyInt? pidStr with
       | none => none
       | some pid =>
         let cur := (alistGet pid parsed.ospf_processes).getD { process_id := pid }
         let ps := alistSet pid cur parsed.ospf_processes
         some ({ parsed with ospf_processes := ps }, .routerOspf pid))
  | none =>
  match matchAclNamed line with
  | some (kind, aname) =>
      let als := alistSet aname { name := aname, acl_type := kind } parsed.access_lists
      some ({ parsed with access_lists := als }, .acl aname)
  | none =>
  match matchEnableSecret line with
  | some (stypeStr, _) =>
      (match pyInt? stypeStr with
       | none => none
       | some stype =>
         some ({ parsed with enable_secret_exists := true, enable_secret_type := some stype }, sec))
  | none =>
  match matchUsername line with
  | some (uname, privStr, stypeStr, shash) =>
      (match (match privStr with
              | some p => (pyInt? p).map some
              | none => some none : Option (Option Nat)) with
       | none => none
       | some priv =>
         match pyInt? stypeStr with
         | none => none
         | some stype =>
           let u : UserConfig :=
             { username := uname, privilege := priv,
               secret_type := some stype, secret_hash := some shash }
           let us := alistSet uname u parsed.users
           some ({ parsed with users := us }, sec))
  | none => stepLineSection parsed sec line

/-- parse_running_config: clean the raw text, then scan it line by line.
Returns none exactly where the Python function would raise. -/
def parse_running_config (raw_config : String) : Option ParsedConfig := do
  let config := _clean_config_output raw_config
  let st ← (pySplitLines config).foldlM
    (fun (st : ParsedConfig × CfgSection) line => stepLine st.1 st.2 line)
    ({}, CfgSection.top)
  pure st.1

-- =========================================================================
-- config_builder.py: helpers
-- =========================================================================

/-- Bitwise a AND (NOT b) on nonnegative Python ints.  The set bits of
(a AND b) are a subset of the set bits of a, so clearing them is the exact
subtraction a - (a AND b). -/
def pyAndNot (a b : Nat) : Nat := a - (a &&& b)

/-- _ip_to_int: split on dots and combine the first four fields.  Returns
none where the source raises (fewer than four fields, or a field int()
rejects). -/
def _ip_to_int (ip : String) : Option Nat :=
  match (splitOnChar '.' ip.data).map String.mk with
  | p0 :: p1 :: p2 :: p3 :: _ => do
      let a ← pyInt? p0
      let b ← pyInt? p1
      let c ← pyInt? p2
      let d ← pyInt? p3
      pure ((a <<< 24) + (b <<< 16) + (c <<< 8) + d)
  | _ => none

/-- A string _ip_to_int accepts (where the source cannot raise). -/
def IpOk (s : String) : Prop := (_ip_to_int s).isSome

/-- _ip_in_network: wildcard membership test, ip AND NOT wild equals
net AND NOT wild.  False where the source would raise on an unparseable
address; theorems about code paths that reach this test carry IpOk
hypotheses so that this choice is never load-bearing. -/
def _ip_in_network (ip network wildcard : String) : Bool :=
  match _ip_to_int ip, _ip_to_int network, _ip_to_int wildcard with
  | some i, some n, some w => pyAndNot i w = pyAndNot n w
  | _, _, _ => false

-- =========================================================================
-- config_builder.py: build_ospf_area_change
-- =========================================================================

/-- _generate_interface_ospf_commands: interface-level OSPF command pairs
from affected-interface metadata. -/
def _generate_interface_ospf_commands
    (interfaces : List AffectedInterface) (ospf_process_id new_area : Nat) :
    List String × List String :=
  interfaces.foldl
    (fun (acc : List String × List String) i =>
      (acc.1 ++ ["interface " ++ i.name,
                 " ip ospf " ++ toString ospf_process_id ++ " area " ++ toString new_area],
       acc.2 ++ ["interface " ++ i.name,
                 " ip ospf " ++ toString ospf_process_id ++ " area " ++ toString i.current_area]))
    ([], [])

/-- Process selection at the top of build_ospf_area_change: an explicit id
looks the process up (possibly absent); otherwise the first process in the
dict; otherwise the first interface-level process id. -/
def resolveOspfTarget (parsed : ParsedConfig) (ospf_process_id : Option Nat) :
    Option Nat × Option OSPFProcessConfig :=
  match ospf_process_id with
  | some pid => (some pid, alistGet pid parsed.ospf_processes)
  | none =>
    match parsed.ospf_processes with
    | (pid, o) :: _ => (some pid, some o)
    | [] =>
      match parsed.interfaces.find? (fun p => p.2.ospf_process_id.isSome) with
      | some p => (p.2.ospf_process_id, none)
      | none => (none, none)

/-- Truthiness of the target_interfaces parameter (None and the empty list
are both falsy in the source). -/
def targetListOf (target_interfaces : Option (List String)) : List String :=
  target_interfaces.getD []

/-- Body of the network-statement loop of build_ospf_area_change for one
statement. -/
def ospfStmtStep (parsed : ParsedConfig) (new_area : Nat)
    (target_interfaces : Option (List String))
    (acc : ConfigChangeResult) (stmt : OSPFNetworkStatement) : ConfigChangeResult :=
  let tlist := targetListOf target_interfaces
  let matches_target :=
    tlist.any (fun iname =>
      match alistGet iname parsed.interfaces with
      | some i => truthyS i.ip_address &&
          _ip_in_network (i.ip_address.getD "") stmt.network stmt.wildcard
      | none => false)
  if tlist ≠ [] ∧ ¬ matches_target then acc
  else if stmt.area = new_area then
    let ws := acc.warnings ++
      ["Network " ++ stmt.network ++ " " ++ stmt.wildcard ++
       " already in area " ++ toString new_area ++ ", skipping"]
    { acc with warnings := ws }
  else
    let affected := parsed.interfaces.filterMap (fun p =>
      if truthyS p.2.ip_address &&
         _ip_in_network (p.2.ip_address.getD "") stmt.network stmt.wildcard then
        some { name := p.1, ip_address := p.2.ip_address, subnet_mask := p.2.subnet_mask,
               description := p.2.description,
               network_statement := some (stmt.network ++ " " ++ stmt.wildcard),
               current_area := stmt.area, new_area := new_area,
               ospf_network_type := p.2.ospf_network_type : AffectedInterface }
      else none)
    let cs := acc.commands ++
      [" no network " ++ stmt.network ++ " " ++ stmt.wildcard ++ " area " ++ toString stmt.area,
       " network " ++ stmt.network ++ " " ++ stmt.wildcard ++ " area " ++ toString new_area]
    let rbs := acc.rollback_commands ++
      [" no network " ++ stmt.network ++ " " ++ stmt.wildcard ++ " area " ++ toString new_area,
       " network " ++ stmt.network ++ " " ++ stmt.wildcard ++ " area " ++ toString stmt.area]
    { acc with affected_interfaces := acc.affected_interfaces ++ affected,
               commands := cs, rollback_commands := rbs }

/-- Body of the legacy per-interface loop of build_ospf_area_change for one
interface entry. -/
def legacyIfaceStep (new_area : Nat) (ospf_process_id : Nat)
    (target_interfaces : Option (List String))
    (acc : ConfigChangeResult) (p : String × InterfaceConfig) : ConfigChangeResult :=
  let iname := p.1
  let iface := p.2
  match iface.ospf_process_id, iface.ospf_area with
  | some ipid, some iarea =>
    if ipid ≠ ospf_process_id then acc
    else
      let tlist := targetListOf target_interfaces
      if tlist ≠ [] ∧ iname ∉ tlist then acc
      else if iarea = new_area then
        let ws := acc.warnings ++
          ["Interface " ++ iname ++ " already in area " ++ toString new_area ++ ", skipping"]
        { acc with warnings := ws }
      else
        let afs := acc.affected_interfaces ++
          [{ name := iname, ip_address := iface.ip_address, subnet_mask := iface.subnet_mask,
             description := iface.description, current_area := iarea, new_area := new_area,
             ospf_network_type := iface.ospf_network_type }]
        let cs := acc.commands ++
          ["interface " ++ iname, " ip ospf " ++ toString ipid ++ " area " ++ toString new_area]
        let rbs := acc.rollback_commands ++
          ["interface " ++ iname, " ip ospf " ++ toString ipid ++ " area " ++ toString iarea]
        { acc with affected_interfaces := afs, commands := cs, rollback_commands := rbs }
  | _, _ => acc

/-- Network-statement block of build_ospf_area_change (source lines
474-516): when network commands are generated, start the router-ospf block
and run the statement loop; otherwise only the process id is recorded. -/
def ospfNetworkPhase (parsed : ParsedConfig) (new_area : Nat)
    (target_interfaces : Option (List String)) (pid : Nat)
    (ospfOpt : Option OSPFProcessConfig) (generate_network_commands : Bool) :
    ConfigChangeResult :=
  match ospfOpt with
  | some o =>
    if generate_network_commands then
      o.network_statements.foldl (ospfStmtStep parsed new_area target_interfaces)
        { commands := ["router ospf " ++ toString pid],
          rollback_commands := ["router ospf " ++ toString pid],
          ospf_process_id := some pid }
    else { ospf_process_id := some pid }
  | none => { ospf_process_id := some pid }

/-- Interface-level command block (source lines 518-526). -/
def ospfIfacePhase (r : ConfigChangeResult) (pid new_area : Nat)
    (generate_interface_commands : Bool) : ConfigChangeResult :=
  if generate_interface_commands ∧ r.affected_interfaces ≠ [] then
    let pair := _generate_interface_ospf_commands r.affected_interfaces pid new_area
    { r with commands := r.commands ++ pair.1,
             rollback_commands := r.rollback_commands ++ pair.2 }
  else r

/-- Network-statement removal for interface_only strategy (source lines
528-532). -/
def ospfInterfaceOnlyPhase (r : ConfigChangeResult) (pid : Nat)
    (config_strategy : String) (ospfOpt : Option OSPFProcessConfig) : ConfigChangeResult :=
  match ospfOpt with
  | some o =>
    if config_strategy = "interface_only" ∧ o.network_statements.length > 0 then
      let cs := ("router ospf " ++ toString pid) :: r.commands ++
        o.network_statements.map (fun stmt =>
          " no network " ++ stmt.network ++ " " ++ stmt.wildcard ++
          " area " ++ toString stmt.area)
      { r with commands := cs }
    else r
  | none => r

/-- Legacy per-interface path (source lines 534-564), taken only when
interface commands were not generated. -/
def ospfLegacyPhase (parsed : ParsedConfig) (r : ConfigChangeResult)
    (new_area pid : Nat) (target_interfaces : Option (List String))
    (generate_interface_commands uses_interface_level : Bool) : ConfigChangeResult :=
  if ¬ generate_interface_commands ∧ uses_interface_level then
    parsed.interfaces.foldl (legacyIfaceStep new_area pid target_interfaces) r
  else r

/-- Final warnings and the empty-command cleanup (source lines 566-575):
warn when nothing was generated; clear a command list that is only the
router-ospf header. -/
def ospfFinalize (r : ConfigChangeResult) (pid : Nat) : ConfigChangeResult :=
  let r :=
    if r.commands = [] then
      { r with warnings := r.warnings ++ ["No OSPF configuration found to modify"] }
    else r
  let ws := r.warnings ++ ["No OSPF changes needed (all statements already in target area)"]
  if r.commands = ["router ospf " ++ toString pid] then
    { r with commands := [], rollback_commands := [], warnings := ws }
  else r

/-- build_ospf_area_change: commands to move a device's OSPF configuration
to a new area, with rollback, warnings and affected-interface metadata. -/
def build_ospf_area_change (parsed : ParsedConfig) (new_area : Nat)
    (ospf_process_id : Option Nat) (target_interfaces : Option (List String))
    (config_strategy : String) : ConfigChangeResult :=
  let chosen := resolveOspfTarget parsed ospf_process_id
  match chosen.1 with
  | none => { warnings := ["No OSPF process found in running config"] }
  | some pid =>
    let ospfOpt := chosen.2
    let uses_network_statements :=
      match ospfOpt with
      | some o => decide (o.network_statements.length > 0)
      | none => false
    let uses_interface_level := parsed.interfaces.any (fun p => p.2.ospf_process_id.isSome)
    let gen :=
      if config_strategy = "dual" then (uses_network_statements, true)
      else if config_strategy = "network_only" then (uses_network_statements, false)
      else if config_strategy = "interface_only" then (false, true)
      else (false, false)
    let r := ospfNetworkPhase parsed new_area target_interfaces pid ospfOpt gen.1
    let r := ospfIfacePhase r pid new_area gen.2
    let r := ospfInterfaceOnlyPhase r pid config_strategy ospfOpt
    let r := ospfLegacyPhase parsed r new_area pid target_interfaces gen.2 uses_interface_level
    ospfFinalize r pid

-- =========================================================================
-- config_builder.py: build_credential_rotation
-- =========================================================================

/-- build_credential_rotation: rotate enable secret and one username.  The
source draws a random password from generate_secure_password() when
new_password is None; the draw is the generated argument here (the claims
do not depend on its value, only on where it is spliced). -/
def build_credential_rotation (parsed : ParsedConfig) (new_password : Option String)
    (username : String) (generated : String) : ConfigChangeResult :=
  let pw := new_password.getD generated
  let warnings0 := ["Generated password: " ++ pw]
  let enableCmd := "enable algorithm-type sha256 secret 0 " ++ pw
  let enableRb :=
    if parsed.enable_secret_exists then
      "! WARNING: Cannot reverse hashed password. Manual reset required."
    else "no enable secret"
  let userPart :=
    match alistGet username parsed.users with
    | some user =>
      let priv := user.privilege.getD 15
      (["username " ++ username ++ " privilege " ++ toString priv ++
        " algorithm-type sha256 secret 0 " ++ pw],
       ["! WARNING: Cannot reverse hashed password for user \x27" ++ username ++
        "\x27. Manual reset required."],
       ([] : List String))
    | none =>
      (["username " ++ username ++ " privilege 15 algorithm-type sha256 secret 0 " ++ pw],
       ["no username " ++ username],
       ["User \x27" ++ username ++ "\x27 not found in config, creating new user"])
  { commands := enableCmd :: userPart.1,
    rollback_commands := enableRb :: userPart.2.1,
    warnings := warnings0 ++ userPart.2.2 ++
      ["Rollback for credential rotation requires manual password reset"] }

-- =========================================================================
-- config_builder.py: build_security_acl
-- =========================================================================

/-- A rule dict passed to build_security_acl (all keys read with .get and a
default). -/
structure AclRuleParam where
  action : Option String := none
  protocol : Option String := none
  source : Option String := none
  destination : Option String := none
  extras : Option String := none
deriving Repr, DecidableEq

/-- The formatted line the source emits for one rule dict. -/
def aclRuleLine (rule : AclRuleParam) : String :=
  let action := rule.action.getD "deny"
  let protocol := rule.protocol.getD "tcp"
  let src := rule.source.getD "any"
  let dst := rule.destination.getD "any"
  let extras := rule.extras.getD ""
  let line := " " ++ action ++ " " ++ protocol ++ " " ++ src ++ " " ++ dst
  if extras ≠ "" then line ++ " " ++ extras else line

/-- Default target interfaces of build_security_acl: active, addressed
GigabitEthernet interfaces. -/
def defaultAclTargets (parsed : ParsedConfig) : List String :=
  (parsed.interfaces.filter (fun p =>
    pyStartsWith p.1 "GigabitEthernet" && !p.2.shutdown && truthyS p.2.ip_address)).map
    (fun p => p.1)

/-- The previously bound ACL that build_security_acl looks up for one
interface before binding the new one. -/
def aclExisting (parsed : ParsedConfig) (direction iface_name : String) : Option String :=
  match alistGet iface_name parsed.interfaces with
  | some iface => if direction = "in" then iface.acl_in else iface.acl_out
  | none => none

/-- Per-interface binding step of build_security_acl. -/
def aclBindStep (parsed : ParsedConfig) (acl_name direction : String)
    (acc : ConfigChangeResult) (iface_name : String) : ConfigChangeResult :=
  let existing_acl := aclExisting parsed direction iface_name
  let cs := acc.commands ++
    ["interface " ++ iface_name, " ip access-group " ++ acl_name ++ " " ++ direction]
  let rbs := acc.rollback_commands ++
    ["interface " ++ iface_name, " no ip access-group " ++ acl_name ++ " " ++ direction]
  if truthyS existing_acl then
    let e := existing_acl.getD ""
    let rbs2 := rbs ++ [" ip access-group " ++ e ++ " " ++ direction]
    let ws := acc.warnings ++
      ["Interface " ++ iface_name ++ " had existing ACL \x27" ++ e ++ "\x27 (" ++
       direction ++ "), will be replaced"]
    { acc with commands := cs, rollback_commands := rbs2, warnings := ws }
  else
    { acc with commands := cs, rollback_commands := rbs }

/-- build_security_acl: named extended ACL from rule dicts plus interface
bindings with restore-previous rollback. -/
def build_security_acl (parsed : ParsedConfig) (acl_name : String)
    (rules : List AclRuleParam) (target_interfaces : Option (List String))
    (direction : String) : ConfigChangeResult :=
  let targets :=
    match target_interfaces with
    | some t => t
    | none => defaultAclTargets parsed
  let warnEmpty : List String :=
    if targets = [] then ["No active GigabitEthernet interfaces found for ACL application"]
    else []
  let start : ConfigChangeResult :=
    { commands := ("ip access-list extended " ++ acl_name) ::
        rules.map aclRuleLine ++ [" permit ip any any"],
      rollback_commands := ["no ip access-list extended " ++ acl_name],
      warnings := warnEmpty }
  targets.foldl (aclBindStep parsed acl_name direction) start

-- =========================================================================
-- device_resolver.py
-- =========================================================================

/-- Router node definitions recognized by CML. -/
def ROUTER_NODE_DEFINITIONS : List String :=
  ["cat8000v", "iosv", "csr1000v", "iosxrv9000", "iosxrv", "iosvl2"]

/-- Node states considered alive and targetable. -/
def ACTIVE_NODE_STATES : List String := ["BOOTED", "STARTED"]

/-- Phrasings that mean target all routers. -/
def ALL_KEYWORDS : List String :=
  ["all", "all routers", "all devices", "every router", "every device",
   "all network devices", "all of them", "all the routers"]

/-- A node dict returned by the CML inventory query (keys read with .get). -/
structure CmlNode where
  label : Option String := none
  node_definition : Option String := none
  state : Option String := none
deriving Repr, DecidableEq

/-- is_all_keyword: single-element list whose stripped, lowered element is
a recognized all phrasing. -/
def is_all_keyword (targets : List String) : Bool :=
  match targets with
  | [t] => ALL_KEYWORDS.contains (pyLower (pyStrip t))
  | _ => false

/-- The filter inside get_available_routers: allow-listed node definition
(lowered) and alive state (uppered). -/
def nodeIsActiveRouter (n : CmlNode) : Bool :=
  ROUTER_NODE_DEFINITIONS.contains (pyLower (n.node_definition.getD "")) &&
  ACTIVE_NODE_STATES.contains (pyUpper (n.state.getD ""))

/-- Sort key order of get_available_routers: Python string order on the
label (missing label reads as the empty string). -/
def labelLe (a b : CmlNode) : Prop :=
  pyStrLe (a.label.getD "") (b.label.getD "") = true

instance : DecidableRel labelLe := fun _ _ => Bool.decEq _ true

/-- get_available_routers: filter to active routers, then sort by label.
Python list.sort is stable; insertion sort with a total preorder is the
same stable sort. -/
def get_available_routers (nodes : List CmlNode) : List CmlNode :=
  List.insertionSort labelLe (nodes.filter nodeIsActiveRouter)

/-- resolve_target_devices: expand an all keyword to every active router,
or case-insensitively validate explicit names, deduplicating and keeping
per-name errors. -/
def resolve_target_devices (raw_targets : List String) (nodes : List CmlNode) :
    List String × List String :=
  if raw_targets = [] then ([], ["No target devices specified"])
  else
    let available := get_available_routers nodes
    let available_labels := available.map (fun r => r.label.getD "")
    if is_all_keyword raw_targets then
      if available_labels = [] then
        ([], ["No active routers found in CML lab. Ensure routers are in BOOTED/STARTED state."])
      else (available_labels, [])
    else
      raw_targets.foldl
        (fun (acc : List String × List String) target =>
          let target_clean := pyStrip target
          match available_labels.find? (fun lab => pyLower lab = pyLower target_clean) with
          | some matched =>
              if matched ∈ acc.1 then acc else (acc.1 ++ [matched], acc.2)
          | none =>
              (acc.1, acc.2 ++
                ["Device \x27" ++ target_clean ++ "\x27 not found or not active. Available devices: " ++
                 pyJoin ", " available_labels]))
        ([], [])

-- =========================================================================
-- tasks/pipeline.py: monitoring diff (process_monitoring core)
-- =========================================================================

/-- An entry of a snapshot's interfaces list (a dict; only the status key
is read by the diff code, with empty-string default). -/
structure MonIfaceEntry where
  status : Option String := none
deriving Repr, DecidableEq

/-- count_interfaces_up: number of entries whose status lowers to up. -/
def count_interfaces_up (interfaces : List MonIfaceEntry) : Nat :=
  interfaces.countP (fun i => pyLower (i.status.getD "") == "up")

/-- A network-state snapshot as consumed by the diff code: the neighbor and
route entries are opaque records of which only the count matters. -/
structure NetSnapshot where
  ospf_neighbors : List String := []
  interfaces : List MonIfaceEntry := []
  routes : List String := []
deriving Repr, DecidableEq

/-- The per-device health judgement of process_monitoring. -/
def deviceHealthy (baseline current : NetSnapshot) : Bool :=
  decide (current.ospf_neighbors.length ≥ baseline.ospf_neighbors.length) &&
  decide (count_interfaces_up current.interfaces ≥ count_interfaces_up baseline.interfaces) &&
  decide (current.routes.length > 0)

/-- Accumulator of the monitoring loop (the agg_* variables plus
all_healthy and the per-device map). -/
structure MonAgg where
  per_device : List (String × Bool) := []
  neighbors_before : Nat := 0
  neighbors_after : Nat := 0
  interfaces_before : Nat := 0
  interfaces_after : Nat := 0
  routes_before : Nat := 0
  routes_after : Nat := 0
  all_healthy : Bool := true
deriving Repr, DecidableEq

/-- One iteration of the device loop in process_monitoring. -/
def monitorStep (acc : MonAgg) (d : String × NetSnapshot × NetSnapshot) : MonAgg :=
  let label := d.1
  let baseline := d.2.1
  let current := d.2.2
  let healthy := deviceHealthy baseline current
  { per_device := acc.per_device ++ [(label, healthy)],
    neighbors_before := acc.neighbors_before + baseline.ospf_neighbors.length,
    neighbors_after := acc.neighbors_after + current.ospf_neighbors.length,
    interfaces_before := acc.interfaces_before + count_interfaces_up baseline.interfaces,
    interfaces_after := acc.interfaces_after + count_interfaces_up current.interfaces,
    routes_before := acc.routes_before + baseline.routes.length,
    routes_after := acc.routes_after + current.routes.length,
    all_healthy := acc.all_healthy && healthy }

/-- The diff-computation core of process_monitoring (pipeline.py lines
1202-1279): per-device diffs and health, aggregate before/after/change
counters across all deployed devices, and the fleet deployment_healthy
flag. -/
def monitoring_diff (devices : List (String × NetSnapshot × NetSnapshot)) : MonAgg :=
  devices.foldl monitorStep {}

/-- Aggregate signed change values of the monitoring diff dict. -/
def monitoringChanges (agg : MonAgg) : Int × Int × Int :=
  ((agg.neighbors_after : Int) - (agg.neighbors_before : Int),
   (agg.interfaces_after : Int) - (agg.interfaces_before : Int),
   (agg.routes_after : Int) - (agg.routes_before : Int))

-- =========================================================================
-- routers/operations.py: rollback_operation
-- =========================================================================

/-- Truthiness of an optional Python bool (missing reads as falsy). -/
def truthyB (o : Option Bool) : Bool := o.getD false

/-- Per-device deployment info recorded by the deployment stage. -/
structure DevDeployInfo where
  deployed : Option Bool := none
  node_id : Option String := none
deriving Repr, DecidableEq

/-- The data dict of the cml_deployment stage as read by
rollback_operation. -/
structure CmlDeployData where
  lab_id : Option String := none
  deployed : Option Bool := none
  device_results : List (String × DevDeployInfo) := []
  node_id : Option String := none
  device : Option String := none
deriving Repr, DecidableEq

/-- The rollback stage record written by rollback_operation. -/
structure RbStageRecord where
  status : String
  success : Option Bool := none
  device_results : List (String × Bool) := []
  error : Option String := none
deriving Repr, DecidableEq

/-- The slice of a stored PipelineJob that rollback_operation reads and
writes: stage status strings and stage data reached through
job.stages_data. -/
structure RbJob where
  cml_status : Option String := none
  cml_data : CmlDeployData := {}
  rollback_stage : Option RbStageRecord := none
  rollback_commands : List String := []
deriving Repr, DecidableEq

/-- Outcome of a rollback_operation call: an HTTP 4xx refusal raised before
any execution, an execution failure recorded on the job, or a completed
run (success true when every device succeeded; on failures the endpoint
still records completion and then reports HTTP 500). -/
inductive RbOutcome where
  | refused (detail : String)
  | failedExec (err : String)
  | completedRun (success : Bool)
deriving Repr, DecidableEq

/-- Backward-compatibility reconstruction of device_results from the old
single-device fields. -/
def effectiveDeviceResults (d : CmlDeployData) : List (String × DevDeployInfo) :=
  if d.device_results ≠ [] then d.device_results
  else
    if truthyS d.node_id ∧ truthyS d.device then
      [(d.device.getD "", { deployed := some true, node_id := d.node_id })]
    else []

/-- Devices that were successfully deployed (deployed truthy with a truthy
node id), paired with their node ids. -/
def devicesToRollback (results : List (String × DevDeployInfo)) : List (String × String) :=
  results.filterMap (fun p =>
    if truthyB p.2.deployed && truthyS p.2.node_id then
      some (p.1, p.2.node_id.getD "")
    else none)

/-- Success of one apply_config call (the per-device try/except). -/
def exceptOk {ε α : Type} : Except ε α → Bool
  | .ok _ => true
  | .error _ => false

/-- Execution body of rollback_operation once every gate has passed:
apply the rollback block per device with a per-device try/except, record a
completed rollback stage with the success/failure map. -/
def rollbackExecute (job : RbJob) (applyConfig : String → Except String String) :
    RbOutcome × RbJob :=
  let perDev := (devicesToRollback (effectiveDeviceResults job.cml_data)).map
    (fun d => (d.1, exceptOk (applyConfig d.1)))
  let overall := (perDev.filter (fun p => !p.2)).length = 0
  let rec1 : RbStageRecord :=
    { status := "completed", success := some overall, device_results := perDev }
  (.completedRun overall, { job with rollback_stage := some rec1 })


/-- rollback_operation: the guarded post-hoc rollback endpoint.  External
effects are parameters: cml_server_ok is whether an active CML server row
exists, applyConfig the per-device outcome of client.apply_config.  The
transient running stage record the source commits before executing is
always overwritten before the call returns, so only the final record is
modelled. -/
def rollback_operation (confirm : Bool) (job : RbJob) (cml_server_ok : Bool)
    (applyConfig : String → Except String String) : RbOutcome × RbJob :=
  if ¬ confirm then
    (.refused "Rollback requires confirmation (confirm=True)", job)
  else if job.cml_status ≠ some "completed" then
    (.refused "Operation has not completed CML deployment stage", job)
  else if ¬ truthyB job.cml_data.deployed then
    (.refused "No successful deployment to rollback", job)
  else if (match job.rollback_stage with
           | some r => r.status == "completed"
           | none => false) then
    (.refused "Rollback has already been executed for this operation", job)
  else if job.rollback_commands = [] then
    (.refused "No rollback commands available for this operation", job)
  else if ¬ truthyS job.cml_data.lab_id ∨ effectiveDeviceResults job.cml_data = [] then
    (.refused "Missing CML deployment information (lab_id or device_results)", job)
  else if devicesToRollback (effectiveDeviceResults job.cml_data) = [] then
    (.refused "No successfully deployed devices to rollback", job)
  else if ¬ cml_server_ok then
    let rec0 : RbStageRecord :=
      { status := "failed", success := some false,
        error := some "No active CML server configured" }
    (.failedExec "No active CML server configured", { job with rollback_stage := some rec0 })
  else
    rollbackExecute job applyConfig


-- =========================================================================
-- tasks/pipeline.py and routers/operations.py: orchestrator model
-- =========================================================================

/-- The members of the PipelineStage enum in db/models.py. -/
inductive PStage where
  | voice_input
  | intent_parsing
  | config_generation
  | ai_advice
  | human_decision
  | cml_deployment
  | monitoring
  | splunk_analysis
  | ai_validation
  | notifications
deriving Repr, DecidableEq

/-- The .value string of a PipelineStage member. -/
def stageValue : PStage → String
  | .voice_input => "voice_input"
  | .intent_parsing => "intent_parsing"
  | .config_generation => "config_generation"
  | .ai_advice => "ai_advice"
  | .human_decision => "human_decision"
  | .cml_deployment => "cml_deployment"
  | .monitoring => "monitoring"
  | .splunk_analysis => "splunk_analysis"
  | .ai_validation => "ai_validation"
  | .notifications => "notifications"

/-- Attribute names looked up on the PipelineStage class by the stage lists
in tasks/pipeline.py. -/
inductive StageAttr where
  | VOICE_INPUT
  | INTENT_PARSING
  | CONFIG_GENERATION
  | AI_ADVICE
  | HUMAN_DECISION
  | BASELINE_COLLECTION
  | CML_DEPLOYMENT
  | MONITORING
  | SPLUNK_ANALYSIS
  | AI_VALIDATION
  | NOTIFICATIONS
deriving Repr, DecidableEq

/-- The attribute name as a string (the AttributeError message Python
raises names the missing attribute). -/
def stageAttrName : StageAttr → String
  | .VOICE_INPUT => "VOICE_INPUT"
  | .INTENT_PARSING => "INTENT_PARSING"
  | .CONFIG_GENERATION => "CONFIG_GENERATION"
  | .AI_ADVICE => "AI_ADVICE"
  | .HUMAN_DECISION => "HUMAN_DECISION"
  | .BASELINE_COLLECTION => "BASELINE_COLLECTION"
  | .CML_DEPLOYMENT => "CML_DEPLOYMENT"
  | .MONITORING => "MONITORING"
  | .SPLUNK_ANALYSIS => "SPLUNK_ANALYSIS"
  | .AI_VALIDATION => "AI_VALIDATION"
  | .NOTIFICATIONS => "NOTIFICATIONS"

/-- Attribute lookup on the PipelineStage enum of db/models.py.  The enum
defines ten members; it has no BASELINE_COLLECTION member, so that lookup
is an AttributeError (none). -/
def pipelineStageMember? : StageAttr → Option PStage
  | .VOICE_INPUT => some .voice_input
  | .INTENT_PARSING => some .intent_parsing
  | .CONFIG_GENERATION => some .config_generation
  | .AI_ADVICE => some .ai_advice
  | .HUMAN_DECISION => some .human_decision
  | .BASELINE_COLLECTION => none
  | .CML_DEPLOYMENT => some .cml_deployment
  | .MONITORING => some .monitoring
  | .SPLUNK_ANALYSIS => some .splunk_analysis
  | .AI_VALIDATION => some .ai_validation
  | .NOTIFICATIONS => some .notifications

/-- The stage list built by process_pipeline_job (pipeline.py lines
494-507), as attribute references. -/
def mainStageAttrs : List StageAttr :=
  [.VOICE_INPUT, .INTENT_PARSING, .CONFIG_GENERATION, .AI_ADVICE, .HUMAN_DECISION,
   .BASELINE_COLLECTION, .CML_DEPLOYMENT, .MONITORING, .SPLUNK_ANALYSIS,
   .AI_VALIDATION, .NOTIFICATIONS]

/-- The stage list built by continue_pipeline_after_approval (pipeline.py
lines 324-331), as attribute references. -/
def postApprovalStageAttrs : List StageAttr :=
  [.BASELINE_COLLECTION, .CML_DEPLOYMENT, .MONITORING, .SPLUNK_ANALYSIS,
   .AI_VALIDATION, .NOTIFICATIONS]

/-- Evaluate a stage list: each attribute reference is looked up on the
enum; a missing member raises AttributeError naming the attribute. -/
def resolveStages (attrs : List StageAttr) : Except String (List PStage) :=
  attrs.mapM (fun a =>
    match pipelineStageMember? a with
    | some s => Except.ok s
    | none => Except.error (stageAttrName a))

/-- JobStatus enum of db/models.py. -/
inductive PJobStatus where
  | pending
  | queued
  | running
  | paused
  | completed
  | failed
  | cancelled
deriving Repr, DecidableEq

/-- The failure-relevant keys of a stage handler's returned dict. -/
structure StageResult where
  deployed : Option Bool := none
  success : Option Bool := none
  error : Option String := none
deriving Repr, DecidableEq

/-- Behaviour of one stage handler invocation: a returned dict or a raised
exception. -/
inductive HOutcome where
  | ok (r : StageResult)
  | exn (msg : String)
deriving Repr, DecidableEq

/-- A stage record inside job.stages_data (status string plus data or
error; timestamps omitted). -/
structure PStageRecord where
  status : String
  data : Option StageResult := none
  error : Option String := none
deriving Repr, DecidableEq

/-- The orchestrator-visible slice of a PipelineJob row. -/
structure PJob where
  status : PJobStatus := .queued
  current_stage : Option PStage := none
  stages_data : List (String × PStageRecord) := []
  error_message : Option String := none
  decision : Option String := none
deriving Repr, DecidableEq

/-- Events broadcast over the websocket manager (observational only). -/
inductive PEvent where
  | started
  | stage_running (stage : String)
  | stage_completed (stage : String)
  | stage_error (stage : String) (msg : String)
  | awaiting_approval
  | demo_paused (stage : String)
  | resumed
  | pipeline_completed
  | pipeline_error (msg : String)
deriving Repr, DecidableEq

/-- The result-dict failure check of process_pipeline_job (lines 534-550):
deployed is False, or success is False, or a truthy error with falsy
deployed and falsy success.  Returns the error message used. -/
def stageFailure (r : StageResult) : Option String :=
  if r.deployed = some false then some (r.error.getD "Deployment failed")
  else if r.success = some false then some (r.error.getD "Stage failed")
  else if (r.error.getD "") ≠ "" ∧ r.deployed ≠ some true ∧ r.success ≠ some true then r.error
  else none

/-- Stage-failure bookkeeping shared by both loops: mark the stage failed,
fail the job, record the error message. -/
def failStage (job : PJob) (sv : String) (e : String) : PJob :=
  let sd := alistSet sv { status := "failed", error := some e } job.stages_data
  { job with stages_data := sd, status := .failed,
             error_message := some ("Stage " ++ sv ++ " failed: " ++ e) }

/-- Mark a stage running and current (top of each loop iteration). -/
def beginStage (job : PJob) (stage : PStage) : PJob :=
  let sd := alistSet (stageValue stage) { status := "running" } job.stages_data
  { job with current_stage := some stage, stages_data := sd }

/-- Mark a stage completed with its data attached. -/
def completeStage (job : PJob) (sv : String) (r : StageResult) : PJob :=
  let sd := alistSet sv { status := "completed", data := some r } job.stages_data
  { job with stages_data := sd }

/-- The stage loop of process_pipeline_job (lines 509-632): cancellation
check, running mark, handler invocation with the result-dict failure check,
completion or failure bookkeeping, the human-decision pause-and-return,
and the demo-mode transient pause (which ends with status running again and
is therefore visible only as an event).  Returns the final job, the events
emitted, and the stages whose handler was invoked. -/
def runMainStages (handlers : PStage → HOutcome) (demo : Bool) :
    PJob → List PStage → PJob × List PEvent × List PStage
  | job, [] => ({ job with status := .completed }, [.pipeline_completed], [])
  | job, stage :: rest =>
    if job.status = .cancelled then (job, [], [])
    else
      let sv := stageValue stage
      let job := beginStage job stage
      match handlers stage with
      | .exn e =>
          (failStage job sv e, [.stage_running sv, .stage_error sv e], [stage])
      | .ok r =>
        match stageFailure r with
        | some e =>
            -- raise Exception(error_message): lands in the same except block
            (failStage job sv e, [.stage_running sv, .stage_error sv e], [stage])
        | none =>
          let job := completeStage job sv r
          if stage = .human_decision then
            ({ job with status := .paused },
             [.stage_running sv, .stage_completed sv, .awaiting_approval], [stage])
          else
            let demoEvs := if demo then [PEvent.demo_paused sv] else []
            let out := runMainStages handlers demo job rest
            (out.1, [.stage_running sv, .stage_completed sv] ++ demoEvs ++ out.2.1,
             stage :: out.2.2)

/-- process_pipeline_job (lines 439-644): MCP validation, status running,
stage-list construction inside the try block, then the stage loop; any
exception escaping the body fails the job with the exception text. -/
def process_pipeline_job (cml_ok : Bool) (handlers : PStage → HOutcome) (demo : Bool)
    (job : PJob) : PJob × List PEvent × List PStage :=
  if ¬ cml_ok then
    ({ job with status := .failed, error_message := some "CML MCP unavailable" },
     [.pipeline_error "CML MCP unavailable"], [])
  else
    let job := { job with status := .running }
    match resolveStages mainStageAttrs with
    | .error name =>
        ({ job with status := .failed, error_message := some name },
         [.started, .pipeline_error name], [])
    | .ok stages =>
        let out := runMainStages handlers demo job stages
        (out.1, .started :: out.2.1, out.2.2)

/-- The stage loop of continue_pipeline_after_approval (lines 333-436).
Unlike the main loop it has no result-dict failure check and no
human-decision gate: a returned dict is always recorded as completed. -/
def runPostApprovalStages (handlers : PStage → HOutcome) (demo : Bool) :
    PJob → List PStage → PJob × List PEvent × List PStage
  | job, [] => ({ job with status := .completed }, [.pipeline_completed], [])
  | job, stage :: rest =>
    if job.status = .cancelled then (job, [], [])
    else
      let sv := stageValue stage
      let job := beginStage job stage
      match handlers stage with
      | .exn e =>
          (failStage job sv e, [.stage_running sv, .stage_error sv e], [stage])
      | .ok r =>
          let job := completeStage job sv r
          let demoEvs := if demo then [PEvent.demo_paused sv] else []
          let out := runPostApprovalStages handlers demo job rest
          (out.1, [.stage_running sv, .stage_completed sv] ++ demoEvs ++ out.2.1,
           stage :: out.2.2)

/-- continue_pipeline_after_approval (lines 285-437): guard on the current
stage, status running, then the post-approval stage list is built OUTSIDE
the try block, so the AttributeError it raises escapes the task; the job is
left as last committed (status running) and the fourth component carries
the escaped exception. -/
def continue_pipeline_after_approval (handlers : PStage → HOutcome) (demo : Bool)
    (job : PJob) : PJob × List PEvent × List PStage × Option String :=
  if job.current_stage ≠ some .human_decision then (job, [], [], none)
  else
    let job := { job with status := .running }
    match resolveStages postApprovalStageAttrs with
    | .error name => (job, [.resumed], [], some name)
    | .ok stages =>
        let out := runPostApprovalStages handlers demo job stages
        (out.1, .resumed :: out.2.1, out.2.2, none)

/-- approve_operation (operations.py lines 218-330): guarded on the job
being at human_decision; records the decision on the stage map; approval
sets status running and enqueues the continuation, rejection sets status
cancelled.  The returned flag is whether the continuation was enqueued. -/
def approve_operation (job : PJob) (approved : Bool) : Except String (PJob × Bool) :=
  if job.current_stage ≠ some .human_decision then
    .error "Operation is not awaiting approval"
  else
    let sd := alistSet "human_decision" { status := "completed" } job.stages_data
    let job := { job with stages_data := sd }
    if approved then
      .ok ({ job with status := .running, decision := some "approved" }, true)
    else
      .ok ({ job with status := .cancelled, decision := some "rejected" }, false)

-- =========================================================================
-- Shared helper lemmas
-- =========================================================================

theorem alistGet_set_self {κ ν : Type} [DecidableEq κ] (k : κ) (v : ν) (l : List (κ × ν)) :
    alistGet k (alistSet k v l) = some v := by
  induction l with
  | nil => simp [alistGet, alistSet]
  | cons h t ih =>
    obtain ⟨k2, v2⟩ := h
    by_cases hk : k2 = k
    · simp [alistSet, alistGet, hk]
    · simp [alistSet, alistGet, hk, ih]

theorem alistGet_set_ne {κ ν : Type} [DecidableEq κ] {k2 k : κ} (h : k2 ≠ k) (v : ν)
    (l : List (κ × ν)) : alistGet k (alistSet k2 v l) = alistGet k l := by
  induction l with
  | nil => simp [alistGet, alistSet, h]
  | cons hd t ih =>
    obtain ⟨ka, va⟩ := hd
    by_cases hk : ka = k2
    · subst hk
      simp [alistSet, alistGet, h, ih]
    · simp [alistSet, alistGet, hk, ih]

theorem alistGet_mem {κ ν : Type} [DecidableEq κ] {k : κ} {v : ν} {l : List (κ × ν)}
    (h : alistGet k l = some v) : (k, v) ∈ l := by
  induction l with
  | nil => simp [alistGet] at h
  | cons hd t ih =>
    obtain ⟨k2, v2⟩ := hd
    by_cases hk : k2 = k
    · simp [alistGet, hk] at h
      simp [hk, h]
    · simp [alistGet, hk] at h
      exact List.mem_cons_of_mem _ (ih h)

-- =========================================================================
-- C1: the human-approval gate
-- =========================================================================

/-- C1.  The claim says a job that completes HumanDecision is Paused by the
orchestrator and resumes only through the approval endpoint, with rejection
cancelling it.  The code cannot exhibit this behaviour: the stage list in
process_pipeline_job references PipelineStage.BASELINE_COLLECTION, which the
PipelineStage enum in db/models.py does not define, so stage-list
construction raises AttributeError inside the try block and every job is
marked Failed with that error before any stage handler runs; no job is ever
Paused at HumanDecision by the orchestrator.  (The rejection clause of the
claim is implemented: on a job at human_decision the approval endpoint with
approved false does set status cancelled without enqueuing deployment.) -/
theorem C1_human_gate_unreachable
    (handlers : PStage → HOutcome) (demo : Bool) (job : PJob) (j : PJob) :
    (process_pipeline_job true handlers demo job).1.status = .failed ∧
    (process_pipeline_job true handlers demo job).1.error_message = some "BASELINE_COLLECTION" ∧
    (process_pipeline_job true handlers demo job).2.2 = [] ∧
    (process_pipeline_job true handlers demo job).1.status ≠ .paused ∧
    (process_pipeline_job false handlers demo job).1.status = .failed ∧
    (process_pipeline_job false handlers demo job).2.2 = [] ∧
    (∃ j2, approve_operation { j with current_stage := some .human_decision } false =
             .ok (j2, false) ∧ j2.status = .cancelled ∧ j2.decision = some "rejected") := by
  refine ⟨rfl, rfl, rfl,
    fun h => PJobStatus.noConfusion (show PJobStatus.failed = PJobStatus.paused from h),
    rfl, rfl, ?_⟩
  exact ⟨_, rfl, rfl, rfl⟩

-- =========================================================================
-- C2: stage-failure semantics
-- =========================================================================

/-- C2.  The claim says any stage loop treats a raised exception and a
returned dict with deployed or success false identically: job Failed, stage
marked failed, failure event, no further stage.  Two divergences: (1) the
post-approval path, the only one designed to run deployment, never reaches
a handler at all, because its stage list is built outside the try block and
the missing BASELINE_COLLECTION enum member raises AttributeError out of
the task, leaving the job status running with no stage marked failed and no
failure event; (2) that loop also has no deployed/success check, so a
deployment result with deployed false would be recorded completed and the
next stage would still run. -/
theorem C2_failure_semantics_divergence
    (handlers : PStage → HOutcome) (demo : Bool) (j j3 : PJob) :
    (continue_pipeline_after_approval handlers demo
        { j with current_stage := some .human_decision } =
      ({ j with current_stage := some .human_decision, status := .running },
       [.resumed], [], some "BASELINE_COLLECTION")) ∧
    (let bad : StageResult := { deployed := some false, error := some "No lab available" }
     let out := runPostApprovalStages (fun _ => .ok bad) false
       { j3 with status := .running } [.cml_deployment, .monitoring]
     out.2.2 = [.cml_deployment, .monitoring] ∧
     alistGet "cml_deployment" out.1.stages_data =
       some { status := "completed", data := some bad } ∧
     out.1.status = .completed) := by
  constructor
  · rfl
  · refine ⟨rfl, ?_, rfl⟩
    show alistGet "cml_deployment"
      (alistSet "monitoring" { status := "completed", data := some _ }
        (alistSet "monitoring" { status := "running" }
          (alistSet "cml_deployment" { status := "completed", data := some _ }
            (alistSet "cml_deployment" { status := "running" } j3.stages_data)))) = _
    rw [alistGet_set_ne (by decide), alistGet_set_ne (by decide), alistGet_set_self]

-- =========================================================================
-- C5: credential-rotation rollback is explicit warnings
-- =========================================================================

theorem pyStartsWith_append_extends (a b p : String) (h : pyStartsWith a p = true) :
    pyStartsWith (a ++ b) p = true := by
  unfold pyStartsWith at h ⊢
  rw [List.isPrefixOf_iff_prefix] at h ⊢
  rw [String.data_append]
  exact h.trans (List.prefix_append a.data b.data)

/-- C5.  When a hashed enable secret exists its rollback entry is a
human-readable warning comment; when the rotated username already exists
its rollback entry is a warning comment; the result always warns that
rollback needs a manual reset; and every rollback entry is either a warning
comment or a plain removal (no enable secret / no username), never a
command that would set a wrong password. -/
theorem C5_credential_rotation_rollback
    (parsed : ParsedConfig) (new_password : Option String) (username generated : String) :
    (parsed.enable_secret_exists = true →
      (build_credential_rotation parsed new_password username generated).rollback_commands.head? =
        some "! WARNING: Cannot reverse hashed password. Manual reset required.") ∧
    ((alistGet username parsed.users).isSome →
      (build_credential_rotation parsed new_password username generated).rollback_commands.drop 1 =
        ["! WARNING: Cannot reverse hashed password for user \x27" ++ username ++
         "\x27. Manual reset required."]) ∧
    ("Rollback for credential rotation requires manual password reset" ∈
      (build_credential_rotation parsed new_password username generated).warnings) ∧
    (∀ c ∈ (build_credential_rotation parsed new_password username generated).rollback_commands,
      pyStartsWith c "! WARNING" = true ∨ c = "no enable secret" ∨ c = "no username " ++ username) := by
  have hw1 : pyStartsWith "! WARNING: Cannot reverse hashed password. Manual reset required."
      "! WARNING" = true := by decide
  have hw2 : ∀ u : String,
      pyStartsWith ("! WARNING: Cannot reverse hashed password for user \x27" ++ u ++
        "\x27. Manual reset required.") "! WARNING" = true := fun u =>
    pyStartsWith_append_extends _ _ _
      (pyStartsWith_append_extends _ _ _ (by decide))
  unfold build_credential_rotation
  cases hs : parsed.enable_secret_exists <;> cases hu : alistGet username parsed.users <;>
    simp_all [hs, hu]

/-- Witness for C5 at a concrete config with a hashed enable secret and an
existing admin user. -/
theorem C5_credential_rotation_rollback_witness :
    (build_credential_rotation
        { enable_secret_exists := true,
          users := [("admin", { username := "admin", privilege := some 15 })] }
        none "admin" "Xy7pass").rollback_commands.head? =
      some "! WARNING: Cannot reverse hashed password. Manual reset required." ∧
    (build_credential_rotation
        { enable_secret_exists := true,
          users := [("admin", { username := "admin", privilege := some 15 })] }
        none "admin" "Xy7pass").rollback_commands.drop 1 =
      ["! WARNING: Cannot reverse hashed password for user \x27admin\x27. Manual reset required."] := by
  have h := C5_credential_rotation_rollback
    { enable_secret_exists := true,
      users := [("admin", { username := "admin", privilege := some 15 })] }
    none "admin" "Xy7pass"
  exact ⟨h.1 rfl, h.2.1 (by decide)⟩

-- =========================================================================
-- C7: post-hoc rollback gating, execution, idempotency
-- =========================================================================

set_option maxHeartbeats 1000000

theorem rollback_second_refused (c2 ok2 : Bool) (ap2 : String → Except String String)
    (j : RbJob) (r : RbStageRecord) (hr : j.rollback_stage = some r)
    (hst2 : r.status = "completed") :
    (∃ d, (rollback_operation c2 j ok2 ap2).1 = .refused d) ∧
    (rollback_operation c2 j ok2 ap2).2 = j := by
  simp only [rollback_operation]
  split_ifs with h1 h2 h3 h4 h5 h6 h7 h8
  · exact ⟨⟨_, rfl⟩, rfl⟩
  · exact ⟨⟨_, rfl⟩, rfl⟩
  · exact ⟨⟨_, rfl⟩, rfl⟩
  · exact ⟨⟨_, rfl⟩, rfl⟩
  · exact ⟨⟨_, rfl⟩, rfl⟩
  · exact absurd (by rw [hr]; simp [hst2]) h4
  · exact absurd (by rw [hr]; simp [hst2]) h4
  · exact ⟨⟨_, rfl⟩, rfl⟩
  · exact ⟨⟨_, rfl⟩, rfl⟩

/-- C7.  The explicit rollback executes only when the deployment stage
completed with deployed truthy, rollback was not already executed, and the
stored rollback command set is nonempty; violating any of these refuses the
call and leaves the job unchanged.  When every gate passes it records a
completed rollback stage holding a per-device success/failure entry for
exactly the successfully deployed devices, and any second invocation on the
resulting job is refused without changing it again. -/
theorem C7_rollback_operation_gating
    (confirm : Bool) (job : RbJob) (cml_server_ok : Bool)
    (applyConfig : String → Except String String) :
    ((truthyB job.cml_data.deployed ≠ true ∨
      (∃ r, job.rollback_stage = some r ∧ r.status = "completed") ∨
      job.rollback_commands = []) →
      (∃ d, (rollback_operation confirm job cml_server_ok applyConfig).1 = .refused d) ∧
      (rollback_operation confirm job cml_server_ok applyConfig).2 = job) ∧
    (confirm = true → job.cml_status = some "completed" →
     truthyB job.cml_data.deployed = true →
     (∀ r, job.rollback_stage = some r → r.status ≠ "completed") →
     job.rollback_commands ≠ [] →
     truthyS job.cml_data.lab_id = true →
     devicesToRollback (effectiveDeviceResults job.cml_data) ≠ [] →
     cml_server_ok = true →
      ((∃ ov, (rollback_operation confirm job cml_server_ok applyConfig).2.rollback_stage =
          some { status := "completed", success := some ov,
                 device_results := (devicesToRollback (effectiveDeviceResults job.cml_data)).map
                   (fun d => (d.1, exceptOk (applyConfig d.1))) } ∧
          (ov = true ↔ ∀ p ∈ (devicesToRollback (effectiveDeviceResults job.cml_data)).map
              (fun d => (d.1, exceptOk (applyConfig d.1))), p.2 = true)) ∧
       (∀ d ∈ devicesToRollback (effectiveDeviceResults job.cml_data),
          (d.1, exceptOk (applyConfig d.1)) ∈
            (devicesToRollback (effectiveDeviceResults job.cml_data)).map
              (fun d => (d.1, exceptOk (applyConfig d.1)))) ∧
       (∀ (c2 ok2 : Bool) (ap2 : String → Except String String),
         (∃ d2, (rollback_operation c2
             (rollback_operation confirm job cml_server_ok applyConfig).2 ok2 ap2).1 =
               .refused d2) ∧
         (rollback_operation c2
             (rollback_operation confirm job cml_server_ok applyConfig).2 ok2 ap2).2 =
           (rollback_operation confirm job cml_server_ok applyConfig).2))) := by
  constructor
  · intro hdisj
    simp only [rollback_operation]
    split_ifs with h1 h2 h3 h4 h5 h6 h7 h8
    · exact ⟨⟨_, rfl⟩, rfl⟩
    · exact ⟨⟨_, rfl⟩, rfl⟩
    · exact ⟨⟨_, rfl⟩, rfl⟩
    · exact ⟨⟨_, rfl⟩, rfl⟩
    · exact ⟨⟨_, rfl⟩, rfl⟩
    · -- execute branch: every claimed gate passed, contradiction with hdisj
      exfalso
      rcases hdisj with hd | ⟨r, hr, hrs⟩ | hcmd
      · exact hd h3
      · exact h4 (by rw [hr]; simp [hrs])
      · exact h5 hcmd
    · -- failedExec branch: same contradiction
      exfalso
      rcases hdisj with hd | ⟨r, hr, hrs⟩ | hcmd
      · exact hd h3
      · exact h4 (by rw [hr]; simp [hrs])
      · exact h5 hcmd
    · exact ⟨⟨_, rfl⟩, rfl⟩
    · exact ⟨⟨_, rfl⟩, rfl⟩
  · intro hc hst hdep hnr hcmds hlab hdevs hsrv
    have hout : rollback_operation confirm job cml_server_ok applyConfig =
        rollbackExecute job applyConfig := by
      simp only [rollback_operation]
      split_ifs with h1 h2 h3
      · exact absurd hst h1
      · exfalso
        cases hjr : job.rollback_stage with
        | none => rw [hjr] at h2; simp at h2
        | some r =>
          rw [hjr] at h2
          simp only [beq_iff_eq] at h2
          exact hnr r hjr h2
      · rcases h3 with h | h
        · exact absurd hlab h
        · rw [h] at hdevs
          exact absurd rfl hdevs
      · rfl
    rw [hout]
    refine ⟨⟨_, rfl, ?_⟩, fun d hd => List.mem_map_of_mem _ hd, ?_⟩
    · constructor
      · intro hov p hp
        by_contra hpb
        have hmem : p ∈ ((devicesToRollback (effectiveDeviceResults job.cml_data)).map
            (fun d => (d.1, exceptOk (applyConfig d.1)))).filter (fun p => !p.2) := by
          simp [List.mem_filter, hp, hpb]
        have hlen := List.length_pos.mpr (List.ne_nil_of_mem hmem)
        simp only [decide_eq_true_eq] at hov
        omega
      · intro hall
        simp only [decide_eq_true_eq]
        have hnil : ((devicesToRollback (effectiveDeviceResults job.cml_data)).map
            (fun d => (d.1, exceptOk (applyConfig d.1)))).filter (fun p => !p.2) = [] := by
          rw [List.filter_eq_nil]
          intro p hp
          simp [hall p hp]
        rw [hnil]
        rfl
    · intro c2 ok2 ap2
      exact rollback_second_refused c2 ok2 ap2 _ _ rfl rfl

/-- Witness for C7: a two-device deployment where only Router-1 deployed
successfully; the rollback records a completed stage with a success entry
for exactly that device, and a second call is refused. -/
theorem C7_rollback_operation_gating_witness :
    (rollback_operation true
        { cml_status := some "completed",
          cml_data := { lab_id := some "lab1", deployed := some true,
                        device_results :=
                          [("Router-1", { deployed := some true, node_id := some "n1" }),
                           ("Router-2", { deployed := some false, node_id := some "n2" })] },
          rollback_commands := ["no x"] } true
        (fun _ => Except.ok "done")).2.rollback_stage =
      some { status := "completed", success := some true,
             device_results := [("Router-1", true)] } ∧
    (∃ d2, (rollback_operation true
        (rollback_operation true
          { cml_status := some "completed",
            cml_data := { lab_id := some "lab1", deployed := some true,
                          device_results :=
                            [("Router-1", { deployed := some true, node_id := some "n1" }),
                             ("Router-2", { deployed := some false, node_id := some "n2" })] },
            rollback_commands := ["no x"] } true
          (fun _ => Except.ok "done")).2 true (fun _ => Except.ok "done")).1 = .refused d2) := by
  have h := (C7_rollback_operation_gating true
      { cml_status := some "completed",
        cml_data := { lab_id := some "lab1", deployed := some true,
                      device_results :=
                        [("Router-1", { deployed := some true, node_id := some "n1" }),
                         ("Router-2", { deployed := some false, node_id := some "n2" })] },
        rollback_commands := ["no x"] } true (fun _ => Except.ok "done")).2
    rfl rfl (by decide) (fun r hr => Option.noConfusion hr) (by decide) (by decide)
    (by decide) rfl
  obtain ⟨⟨ov, hov, hiff⟩, hmem, hsec⟩ := h
  have hov1 : ov = true := hiff.mpr (by decide)
  subst hov1
  refine ⟨?_, (hsec true true (fun _ => Except.ok "done")).1⟩
  rw [hov]
  decide

-- =========================================================================
-- C8: monitoring diff and the health judgement
-- =========================================================================

/-- C8 counterexample.  The claim reads the fleet as healthy iff the
aggregated neighbor count did not decrease, the aggregated up-interface
count did not decrease, and the aggregated post-change route count is
positive.  With two devices where one gains a neighbor and the other loses
one, every aggregated condition holds yet the code judges the deployment
unhealthy, because deployment_healthy is the conjunction of per-device
judgements, not a predicate on the aggregates. -/
theorem C8_counterexample_aggregate_iff :
    ((monitoring_diff
        [("R1", { ospf_neighbors := ["a"], routes := ["r"] },
                { ospf_neighbors := ["a", "b"], routes := ["r"] }),
         ("R2", { ospf_neighbors := ["a", "b"], routes := ["r"] },
                { ospf_neighbors := ["a"], routes := ["r"] })]).neighbors_after ≥
      (monitoring_diff
        [("R1", { ospf_neighbors := ["a"], routes := ["r"] },
                { ospf_neighbors := ["a", "b"], routes := ["r"] }),
         ("R2", { ospf_neighbors := ["a", "b"], routes := ["r"] },
                { ospf_neighbors := ["a"], routes := ["r"] })]).neighbors_before) ∧
    ((monitoring_diff
        [("R1", { ospf_neighbors := ["a"], routes := ["r"] },
                { ospf_neighbors := ["a", "b"], routes := ["r"] }),
         ("R2", { ospf_neighbors := ["a", "b"], routes := ["r"] },
                { ospf_neighbors := ["a"], routes := ["r"] })]).interfaces_after ≥
      (monitoring_diff
        [("R1", { ospf_neighbors := ["a"], routes := ["r"] },
                { ospf_neighbors := ["a", "b"], routes := ["r"] }),
         ("R2", { ospf_neighbors := ["a", "b"], routes := ["r"] },
                { ospf_neighbors := ["a"], routes := ["r"] })]).interfaces_before) ∧
    ((monitoring_diff
        [("R1", { ospf_neighbors := ["a"], routes := ["r"] },
                { ospf_neighbors := ["a", "b"], routes := ["r"] }),
         ("R2", { ospf_neighbors := ["a", "b"], routes := ["r"] },
                { ospf_neighbors := ["a"], routes := ["r"] })]).routes_after > 0) ∧
    ((monitoring_diff
        [("R1", { ospf_neighbors := ["a"], routes := ["r"] },
                { ospf_neighbors := ["a", "b"], routes := ["r"] }),
         ("R2", { ospf_neighbors := ["a", "b"], routes := ["r"] },
                { ospf_neighbors := ["a"], routes := ["r"] })]).all_healthy = false) := by
  decide

theorem monitoring_diff_foldl (ds : List (String × NetSnapshot × NetSnapshot)) :
    ∀ acc : MonAgg, ds.foldl monitorStep acc =
      { per_device := acc.per_device ++ ds.map (fun d => (d.1, deviceHealthy d.2.1 d.2.2)),
        neighbors_before := acc.neighbors_before +
          (ds.map (fun d => d.2.1.ospf_neighbors.length)).sum,
        neighbors_after := acc.neighbors_after +
          (ds.map (fun d => d.2.2.ospf_neighbors.length)).sum,
        interfaces_before := acc.interfaces_before +
          (ds.map (fun d => count_interfaces_up d.2.1.interfaces)).sum,
        interfaces_after := acc.interfaces_after +
          (ds.map (fun d => count_interfaces_up d.2.2.interfaces)).sum,
        routes_before := acc.routes_before + (ds.map (fun d => d.2.1.routes.length)).sum,
        routes_after := acc.routes_after + (ds.map (fun d => d.2.2.routes.length)).sum,
        all_healthy := acc.all_healthy && ds.all (fun d => deviceHealthy d.2.1 d.2.2) } := by
  induction ds with
  | nil => intro acc; simp
  | cons d rest ih =>
    intro acc
    rw [List.foldl_cons, ih]
    simp [monitorStep, Nat.add_assoc, Bool.and_assoc]

/-- C8 amended.  The monitoring diff aggregates before/after counters by
summation across the deployed devices (changes are after minus before);
each device is judged healthy iff its neighbor count did not decrease, its
up-interface count did not decrease, and its post-change route count is
positive; the fleet deployment_healthy flag is the conjunction of the
per-device judgements (for a single device it coincides with the aggregate
reading); and the claimed concrete example, baseline neighbors 2,
interfaces up 3, routes 5 against current neighbors 1, interfaces up 3,
routes 5, yields healthy false with neighbor change minus one. -/
theorem C8_monitoring_diff_amended (devices : List (String × NetSnapshot × NetSnapshot)) :
    (monitoring_diff devices).neighbors_before =
      (devices.map (fun d => d.2.1.ospf_neighbors.length)).sum ∧
    (monitoring_diff devices).neighbors_after =
      (devices.map (fun d => d.2.2.ospf_neighbors.length)).sum ∧
    (monitoring_diff devices).interfaces_before =
      (devices.map (fun d => count_interfaces_up d.2.1.interfaces)).sum ∧
    (monitoring_diff devices).interfaces_after =
      (devices.map (fun d => count_interfaces_up d.2.2.interfaces)).sum ∧
    (monitoring_diff devices).routes_before =
      (devices.map (fun d => d.2.1.routes.length)).sum ∧
    (monitoring_diff devices).routes_after =
      (devices.map (fun d => d.2.2.routes.length)).sum ∧
    monitoringChanges (monitoring_diff devices) =
      (((devices.map (fun d => d.2.2.ospf_neighbors.length)).sum : Int) -
         ((devices.map (fun d => d.2.1.ospf_neighbors.length)).sum : Int),
       ((devices.map (fun d => count_interfaces_up d.2.2.interfaces)).sum : Int) -
         ((devices.map (fun d => count_interfaces_up d.2.1.interfaces)).sum : Int),
       ((devices.map (fun d => d.2.2.routes.length)).sum : Int) -
         ((devices.map (fun d => d.2.1.routes.length)).sum : Int)) ∧
    (monitoring_diff devices).per_device =
      devices.map (fun d => (d.1, deviceHealthy d.2.1 d.2.2)) ∧
    (monitoring_diff devices).all_healthy =
      devices.all (fun d => deviceHealthy d.2.1 d.2.2) ∧
    (∀ baseline current : NetSnapshot, deviceHealthy baseline current = true ↔
      (baseline.ospf_neighbors.length ≤ current.ospf_neighbors.length ∧
       count_interfaces_up baseline.interfaces ≤ count_interfaces_up current.interfaces ∧
       0 < current.routes.length)) ∧
    ((monitoring_diff
        [("Router-1",
          { ospf_neighbors := ["n1", "n2"],
            interfaces := [{ status := some "up" }, { status := some "up" },
                           { status := some "up" }],
            routes := ["r1", "r2", "r3", "r4", "r5"] },
          { ospf_neighbors := ["n1"],
            interfaces := [{ status := some "up" }, { status := some "up" },
                           { status := some "up" }],
            routes := ["r1", "r2", "r3", "r4", "r5"] })]).all_healthy = false ∧
     (monitoringChanges (monitoring_diff
        [("Router-1",
          { ospf_neighbors := ["n1", "n2"],
            interfaces := [{ status := some "up" }, { status := some "up" },
                           { status := some "up" }],
            routes := ["r1", "r2", "r3", "r4", "r5"] },
          { ospf_neighbors := ["n1"],
            interfaces := [{ status := some "up" }, { status := some "up" },
                           { status := some "up" }],
            routes := ["r1", "r2", "r3", "r4", "r5"] })])).1 = -1) := by
  have hfold := monitoring_diff_foldl devices ({} : MonAgg)
  unfold monitoring_diff
  rw [hfold]
  refine ⟨by simp, by simp, by simp, by simp, by simp, by simp, ?_, by simp, by simp, ?_, ?_⟩
  · simp [monitoringChanges, Function.comp_def]
  · intro baseline current
    simp [deviceHealthy, Bool.and_eq_true, decide_eq_true_eq, and_assoc]
  · constructor <;> decide

-- =========================================================================
-- C9: resolving the all keyword
-- =========================================================================

theorem pyStrLeData_total (a b : List Char) :
    pyStrLeData a b = true ∨ pyStrLeData b a = true := by
  induction a generalizing b with
  | nil => left; rfl
  | cons c cs ih =>
    cases b with
    | nil => right; rfl
    | cons d ds =>
      by_cases h1 : c.toNat < d.toNat
      · left; simp [pyStrLeData, h1]
      · by_cases h2 : c.toNat = d.toNat
        · rcases ih ds with h | h
          · left; simp [pyStrLeData, h1, h2, h]
          · right
            have h3 : ¬ d.toNat < c.toNat := by omega
            simp [pyStrLeData, h3, h2.symm, h]
        · right
          have h3 : d.toNat < c.toNat := by omega
          simp [pyStrLeData, h3]

theorem pyStrLeData_trans (a b c : List Char) (hab : pyStrLeData a b = true)
    (hbc : pyStrLeData b c = true) : pyStrLeData a c = true := by
  induction a generalizing b c with
  | nil => rfl
  | cons x xs ih =>
    cases b with
    | nil => simp [pyStrLeData] at hab
    | cons y ys =>
      cases c with
      | nil => simp [pyStrLeData] at hbc
      | cons z zs =>
        have hab' : x.toNat < y.toNat ∨ (x.toNat = y.toNat ∧ pyStrLeData xs ys = true) := by
          by_cases ha : x.toNat < y.toNat
          · exact Or.inl ha
          · by_cases hb : x.toNat = y.toNat
            · refine Or.inr ⟨hb, ?_⟩
              simpa [pyStrLeData, ha, hb] using hab
            · simp [pyStrLeData, ha, hb] at hab
        have hbc' : y.toNat < z.toNat ∨ (y.toNat = z.toNat ∧ pyStrLeData ys zs = true) := by
          by_cases ha : y.toNat < z.toNat
          · exact Or.inl ha
          · by_cases hb : y.toNat = z.toNat
            · refine Or.inr ⟨hb, ?_⟩
              simpa [pyStrLeData, ha, hb] using hbc
            · simp [pyStrLeData, ha, hb] at hbc
        rcases hab' with h1 | ⟨he1, hr1⟩ <;> rcases hbc' with h2 | ⟨he2, hr2⟩
        · simp [pyStrLeData, show x.toNat < z.toNat by omega]
        · simp [pyStrLeData, show x.toNat < z.toNat by omega]
        · simp [pyStrLeData, show x.toNat < z.toNat by omega]
        · have hx : ¬ x.toNat < z.toNat := by omega
          simp [pyStrLeData, hx, show x.toNat = z.toNat by omega, ih ys zs hr1 hr2]

/-- C9.  Resolving a single-element, case-insensitive all phrasing returns
exactly the labels of the inventory devices whose lowered node definition
is in the router allow-list and whose uppered state is in the alive set,
as a label-sorted list with no errors; when that set is empty it returns no
labels and the no-active-routers error. -/
theorem C9_resolve_all_keyword (raw : List String) (nodes : List CmlNode)
    (hall : is_all_keyword raw = true) :
    ((nodes.filter nodeIsActiveRouter ≠ []) →
      ((resolve_target_devices raw nodes).1.Perm
        ((nodes.filter nodeIsActiveRouter).map (fun n => n.label.getD "")) ∧
       List.Pairwise (fun a b : String => pyStrLe a b = true)
         (resolve_target_devices raw nodes).1 ∧
       (resolve_target_devices raw nodes).2 = [])) ∧
    ((nodes.filter nodeIsActiveRouter = []) →
      ((resolve_target_devices raw nodes).1 = [] ∧
       (resolve_target_devices raw nodes).2 =
         ["No active routers found in CML lab. Ensure routers are in BOOTED/STARTED state."])) := by
  have hperm : List.Perm (get_available_routers nodes) (nodes.filter nodeIsActiveRouter) :=
    List.perm_insertionSort labelLe _
  have hsorted : List.Pairwise labelLe (get_available_routers nodes) := by
    letI : IsTotal CmlNode labelLe := ⟨fun a b => pyStrLeData_total _ _⟩
    letI : IsTrans CmlNode labelLe := ⟨fun a b c h1 h2 => pyStrLeData_trans _ _ _ h1 h2⟩
    exact List.sorted_insertionSort labelLe _
  obtain ⟨t, hraw⟩ : ∃ t, raw = [t] := by
    cases raw with
    | nil => simp [is_all_keyword] at hall
    | cons t rest =>
      cases rest with
      | nil => exact ⟨t, rfl⟩
      | cons u us => simp [is_all_keyword] at hall
  subst hraw
  constructor
  · intro hne
    have hlabels_ne : (get_available_routers nodes).map (fun r => r.label.getD "") ≠ [] := by
      intro h
      rw [List.map_eq_nil] at h
      rw [h] at hperm
      exact hne (hperm.nil_eq).symm
    have hres : resolve_target_devices [t] nodes =
        ((get_available_routers nodes).map (fun r => r.label.getD ""), []) := by
      simp only [resolve_target_devices]
      rw [if_neg (by simp), if_pos hall, if_neg hlabels_ne]
    rw [hres]
    exact ⟨hperm.map _, (List.pairwise_map).mpr hsorted, rfl⟩
  · intro heq
    have hempty : get_available_routers nodes = [] := by
      rw [heq] at hperm
      exact hperm.eq_nil
    have hres : resolve_target_devices [t] nodes =
        ([], ["No active routers found in CML lab. Ensure routers are in BOOTED/STARTED state."]) := by
      simp only [resolve_target_devices]
      rw [if_neg (by simp), if_pos hall, if_pos (by simp [hempty])]
    rw [hres]
    exact ⟨rfl, rfl⟩

/-- Witness for C9 at a five-node inventory with three active routers,
using the phrasing All Routers, plus the empty-inventory error case. -/
theorem C9_resolve_all_keyword_witness :
    ((resolve_target_devices ["All Routers"]
        [{ label := some "Router-3", node_definition := some "iosv", state := some "BOOTED" },
         { label := some "Router-1", node_definition := some "iosv", state := some "STARTED" },
         { label := some "Switch-1", node_definition := some "server", state := some "BOOTED" },
         { label := some "Router-2", node_definition := some "csr1000v", state := some "BOOTED" },
         { label := some "Router-9", node_definition := some "iosv", state := some "STOPPED" }]).1.Perm
      (([{ label := some "Router-3", node_definition := some "iosv", state := some "BOOTED" },
         { label := some "Router-1", node_definition := some "iosv", state := some "STARTED" },
         { label := some "Switch-1", node_definition := some "server", state := some "BOOTED" },
         { label := some "Router-2", node_definition := some "csr1000v", state := some "BOOTED" },
         { label := some "Router-9", node_definition := some "iosv", state := some "STOPPED" }].filter
            nodeIsActiveRouter).map (fun n => n.label.getD "")) ∧
     List.Pairwise (fun a b : String => pyStrLe a b = true)
       (resolve_target_devices ["All Routers"]
        [{ label := some "Router-3", node_definition := some "iosv", state := some "BOOTED" },
         { label := some "Router-1", node_definition := some "iosv", state := some "STARTED" },
         { label := some "Switch-1", node_definition := some "server", state := some "BOOTED" },
         { label := some "Router-2", node_definition := some "csr1000v", state := some "BOOTED" },
         { label := some "Router-9", node_definition := some "iosv", state := some "STOPPED" }]).1 ∧
     (resolve_target_devices ["All Routers"]
        [{ label := some "Router-3", node_definition := some "iosv", state := some "BOOTED" },
         { label := some "Router-1", node_definition := some "iosv", state := some "STARTED" },
         { label := some "Switch-1", node_definition := some "server", state := some "BOOTED" },
         { label := some "Router-2", node_definition := some "csr1000v", state := some "BOOTED" },
         { label := some "Router-9", node_definition := some "iosv", state := some "STOPPED" }]).2 = []) ∧
    ((resolve_target_devices ["all"] []).1 = [] ∧
     (resolve_target_devices ["all"] []).2 =
       ["No active routers found in CML lab. Ensure routers are in BOOTED/STARTED state."]) :=
  ⟨(C9_resolve_all_keyword ["All Routers"]
      [{ label := some "Router-3", node_definition := some "iosv", state := some "BOOTED" },
       { label := some "Router-1", node_definition := some "iosv", state := some "STARTED" },
       { label := some "Switch-1", node_definition := some "server", state := some "BOOTED" },
       { label := some "Router-2", node_definition := some "csr1000v", state := some "BOOTED" },
       { label := some "Router-9", node_definition := some "iosv", state := some "STOPPED" }]
      (by decide)).1 (by decide),
   (C9_resolve_all_keyword ["all"] [] (by decide)).2 (by decide)⟩

-- =========================================================================
-- C3 and C4: build_ospf_area_change lemmas
-- =========================================================================

theorem ospfStmtStep_matched (parsed : ParsedConfig) (new_area : Nat)
    (acc : ConfigChangeResult) (stmt : OSPFNetworkStatement) (h : stmt.area = new_area) :
    ospfStmtStep parsed new_area none acc stmt =
      { acc with warnings := acc.warnings ++
          ["Network " ++ stmt.network ++ " " ++ stmt.wildcard ++
           " already in area " ++ toString new_area ++ ", skipping"] } := by
  unfold ospfStmtStep targetListOf
  simp [h]

theorem foldl_ospfStmtStep_all_matched (parsed : ParsedConfig) (new_area : Nat)
    (stmts : List OSPFNetworkStatement) (hm : ∀ s ∈ stmts, s.area = new_area) :
    ∀ acc : ConfigChangeResult, stmts.foldl (ospfStmtStep parsed new_area none) acc =
      { acc with warnings := acc.warnings ++ stmts.map (fun s =>
          "Network " ++ s.network ++ " " ++ s.wildcard ++
          " already in area " ++ toString new_area ++ ", skipping") } := by
  induction stmts with
  | nil => intro acc; simp
  | cons s rest ih =>
    intro acc
    rw [List.foldl_cons, ospfStmtStep_matched parsed new_area acc s (hm s (List.mem_cons_self s rest)),
        ih (fun s2 h2 => hm s2 (List.mem_cons_of_mem s h2))]
    simp

theorem ospfStmtStep_append (parsed : ParsedConfig) (new_area : Nat)
    (t : Option (List String)) (acc : ConfigChangeResult) (s : OSPFNetworkStatement) :
    ∃ dc dr da,
      (ospfStmtStep parsed new_area t acc s).commands = acc.commands ++ dc ∧
      (ospfStmtStep parsed new_area t acc s).rollback_commands = acc.rollback_commands ++ dr ∧
      (ospfStmtStep parsed new_area t acc s).affected_interfaces =
        acc.affected_interfaces ++ da := by
  simp only [ospfStmtStep]
  split_ifs
  · exact ⟨[], [], [], by simp, by simp, by simp⟩
  · exact ⟨[], [], [], by simp, by simp, by simp⟩
  · exact ⟨_, _, _, rfl, rfl, rfl⟩

theorem foldl_ospfStmtStep_append (parsed : ParsedConfig) (new_area : Nat)
    (t : Option (List String)) (stmts : List OSPFNetworkStatement) :
    ∀ acc : ConfigChangeResult, ∃ dc dr da,
      (stmts.foldl (ospfStmtStep parsed new_area t) acc).commands = acc.commands ++ dc ∧
      (stmts.foldl (ospfStmtStep parsed new_area t) acc).rollback_commands =
        acc.rollback_commands ++ dr ∧
      (stmts.foldl (ospfStmtStep parsed new_area t) acc).affected_interfaces =
        acc.affected_interfaces ++ da := by
  induction stmts with
  | nil => exact fun acc => ⟨[], [], [], by simp, by simp, by simp⟩
  | cons s rest ih =>
    intro acc
    obtain ⟨dc1, dr1, da1, hc1, hr1, ha1⟩ := ospfStmtStep_append parsed new_area t acc s
    obtain ⟨dc2, dr2, da2, hc2, hr2, ha2⟩ := ih (ospfStmtStep parsed new_area t acc s)
    exact ⟨dc1 ++ dc2, dr1 ++ dr2, da1 ++ da2,
      by rw [List.foldl_cons, hc2, hc1, List.append_assoc],
      by rw [List.foldl_cons, hr2, hr1, List.append_assoc],
      by rw [List.foldl_cons, ha2, ha1, List.append_assoc]⟩

theorem ospfStmtStep_emit (parsed : ParsedConfig) (new_area : Nat)
    (acc : ConfigChangeResult) (stmt : OSPFNetworkStatement) (hne : stmt.area ≠ new_area) :
    (ospfStmtStep parsed new_area none acc stmt).commands = acc.commands ++
        [" no network " ++ stmt.network ++ " " ++ stmt.wildcard ++ " area " ++ toString stmt.area,
         " network " ++ stmt.network ++ " " ++ stmt.wildcard ++ " area " ++ toString new_area] ∧
    (ospfStmtStep parsed new_area none acc stmt).rollback_commands = acc.rollback_commands ++
        [" no network " ++ stmt.network ++ " " ++ stmt.wildcard ++ " area " ++ toString new_area,
         " network " ++ stmt.network ++ " " ++ stmt.wildcard ++ " area " ++ toString stmt.area] := by
  unfold ospfStmtStep targetListOf
  simp [hne]

theorem foldl_ospfStmtStep_emit_infix (parsed : ParsedConfig) (new_area : Nat)
    (stmts : List OSPFNetworkStatement) (stmt : OSPFNetworkStatement)
    (hmem : stmt ∈ stmts) (hne : stmt.area ≠ new_area) :
    ∀ acc : ConfigChangeResult,
      List.IsInfix
        [" no network " ++ stmt.network ++ " " ++ stmt.wildcard ++ " area " ++ toString stmt.area,
         " network " ++ stmt.network ++ " " ++ stmt.wildcard ++ " area " ++ toString new_area]
        (stmts.foldl (ospfStmtStep parsed new_area none) acc).commands ∧
      List.IsInfix
        [" no network " ++ stmt.network ++ " " ++ stmt.wildcard ++ " area " ++ toString new_area,
         " network " ++ stmt.network ++ " " ++ stmt.wildcard ++ " area " ++ toString stmt.area]
        (stmts.foldl (ospfStmtStep parsed new_area none) acc).rollback_commands := by
  induction stmts with
  | nil => exact absurd hmem (List.not_mem_nil stmt)
  | cons s rest ih =>
    intro acc
    rcases List.mem_cons.mp hmem with heq | hmem2
    · subst heq
      obtain ⟨hc, hr⟩ := ospfStmtStep_emit parsed new_area acc stmt hne
      obtain ⟨dc2, dr2, _, hc2, hr2, _⟩ :=
        foldl_ospfStmtStep_append parsed new_area none rest
          (ospfStmtStep parsed new_area none acc stmt)
      rw [List.foldl_cons, hc2, hc, hr2, hr]
      constructor
      · exact ((List.suffix_append _ _).isInfix).trans ((List.prefix_append _ _).isInfix)
      · exact ((List.suffix_append _ _).isInfix).trans ((List.prefix_append _ _).isInfix)
    · exact ih hmem2 (ospfStmtStep parsed new_area none acc s)

theorem generate_iface_foldl_eq (pid n : Nat) (l : List AffectedInterface) :
    ∀ c0 r0 : List String,
      l.foldl (fun (acc : List String × List String) i =>
        (acc.1 ++ ["interface " ++ i.name,
                   " ip ospf " ++ toString pid ++ " area " ++ toString n],
         acc.2 ++ ["interface " ++ i.name,
                   " ip ospf " ++ toString pid ++ " area " ++ toString i.current_area])) (c0, r0) =
      (c0 ++ l.bind (fun i => ["interface " ++ i.name,
         " ip ospf " ++ toString pid ++ " area " ++ toString n]),
       r0 ++ l.bind (fun i => ["interface " ++ i.name,
         " ip ospf " ++ toString pid ++ " area " ++ toString i.current_area])) := by
  induction l with
  | nil => intro c0 r0; simp
  | cons i rest ih =>
    intro c0 r0
    rw [List.foldl_cons, ih]
    simp

theorem generate_iface_commands_eq (l : List AffectedInterface) (pid n : Nat) :
    _generate_interface_ospf_commands l pid n =
      (l.bind (fun i => ["interface " ++ i.name,
         " ip ospf " ++ toString pid ++ " area " ++ toString n]),
       l.bind (fun i => ["interface " ++ i.name,
         " ip ospf " ++ toString pid ++ " area " ++ toString i.current_area])) := by
  unfold _generate_interface_ospf_commands
  rw [generate_iface_foldl_eq]
  simp

theorem ospfIfacePhase_append (r : ConfigChangeResult) (pid n : Nat) (g : Bool) :
    ∃ d dr, (ospfIfacePhase r pid n g).commands = r.commands ++ d ∧
      (ospfIfacePhase r pid n g).rollback_commands = r.rollback_commands ++ dr ∧
      (ospfIfacePhase r pid n g).affected_interfaces = r.affected_interfaces := by
  simp only [ospfIfacePhase]
  split_ifs
  · exact ⟨_, _, rfl, rfl, rfl⟩
  · exact ⟨[], [], by simp, by simp, rfl⟩

theorem ospfIfacePhase_of_no_affected (r : ConfigChangeResult) (pid n : Nat) (g : Bool)
    (h : r.affected_interfaces = []) : ospfIfacePhase r pid n g = r := by
  simp [ospfIfacePhase, h]

theorem ospfIfaceNetwork_shape (parsed : ParsedConfig) (n : Nat)
    (t : Option (List String)) (pid : Nat) (ospfOpt : Option OSPFProcessConfig)
    (g g2 : Bool) :
    (ospfIfacePhase (ospfNetworkPhase parsed n t pid ospfOpt g) pid n g2).commands = [] ∨
    ∃ tail, (ospfIfacePhase (ospfNetworkPhase parsed n t pid ospfOpt g) pid n g2).commands =
      ("router ospf " ++ toString pid) :: tail := by
  cases ospfOpt with
  | none =>
    left
    rw [ospfIfacePhase_of_no_affected _ _ _ _ rfl]
    rfl
  | some o =>
    cases g with
    | false =>
      left
      rw [ospfIfacePhase_of_no_affected _ _ _ _ rfl]
      rfl
    | true =>
      right
      obtain ⟨dc, dr0, da, hdc, _, _⟩ := foldl_ospfStmtStep_append parsed n t
        o.network_statements
        { commands := ["router ospf " ++ toString pid],
          rollback_commands := ["router ospf " ++ toString pid],
          ospf_process_id := some pid }
      obtain ⟨d, dr, hc, _, _⟩ :=
        ospfIfacePhase_append (ospfNetworkPhase parsed n t pid (some o) true) pid n g2
      refine ⟨dc ++ d, ?_⟩
      rw [hc]
      have hnp : (ospfNetworkPhase parsed n t pid (some o) true).commands =
          ["router ospf " ++ toString pid] ++ dc := by
        simp only [ospfNetworkPhase, if_pos]
        exact hdc
      rw [hnp]
      simp

theorem ospfFinalize_length_ne_one (r : ConfigChangeResult) (pid : Nat)
    (hshape : r.commands = [] ∨
      ∃ tail, r.commands = ("router ospf " ++ toString pid) :: tail) :
    (ospfFinalize r pid).commands.length ≠ 1 := by
  rcases hshape with h | ⟨tail, h⟩
  · simp [ospfFinalize, h]
  · cases tail with
    | nil => simp [ospfFinalize, h]
    | cons a as => simp [ospfFinalize, h]

theorem build_ospf_dual_eq (parsed : ParsedConfig) (n : Nat) (t : Option (List String)) :
    build_ospf_area_change parsed n none t "dual" =
      match resolveOspfTarget parsed none with
      | (none, _) => { warnings := ["No OSPF process found in running config"] }
      | (some pid, ospfOpt) =>
        ospfFinalize
          (ospfIfacePhase
            (ospfNetworkPhase parsed n t pid ospfOpt
              (match ospfOpt with
               | some o => decide (o.network_statements.length > 0)
               | none => false)) pid n true) pid := by
  rcases hpr : resolveOspfTarget parsed none with ⟨c1, c2⟩
  cases c1 with
  | none => simp [build_ospf_area_change, hpr]
  | some pid =>
    cases c2 with
    | none => simp [build_ospf_area_change, hpr, ospfInterfaceOnlyPhase, ospfLegacyPhase]
    | some o => simp [build_ospf_area_change, hpr, ospfInterfaceOnlyPhase, ospfLegacyPhase]

/-- C4.  On a config whose every network statement of the selected process
is already in the target area (the second run of the same change), the
default dual-strategy builder returns zero commands and zero rollback
commands with an explanatory warning; when no OSPF process and no
interface-level OSPF exists it returns zero commands with an explanatory
warning; and for any parsed config and area the dual-strategy result never
consists of exactly one command, so a degenerate router-ospf header with no
body beneath it is never emitted. -/
theorem C4_ospf_second_run_idempotent
    (parsed parsed2 parsed3 : ParsedConfig) (new_area new_area3 : Nat)
    (pid : Nat) (o : OSPFProcessConfig) (rest : List (Nat × OSPFProcessConfig)) :
    (parsed.ospf_processes = (pid, o) :: rest →
     (∀ s ∈ o.network_statements, s.area = new_area) →
      ((build_ospf_area_change parsed new_area none none "dual").commands = [] ∧
       (build_ospf_area_change parsed new_area none none "dual").rollback_commands = [] ∧
       ("No OSPF changes needed (all statements already in target area)" ∈
          (build_ospf_area_change parsed new_area none none "dual").warnings ∨
        "No OSPF configuration found to modify" ∈
          (build_ospf_area_change parsed new_area none none "dual").warnings))) ∧
    (parsed2.ospf_processes = [] →
     (∀ q ∈ parsed2.interfaces, q.2.ospf_process_id = none) →
      ((build_ospf_area_change parsed2 new_area none none "dual").commands = [] ∧
       (build_ospf_area_change parsed2 new_area none none "dual").warnings =
         ["No OSPF process found in running config"])) ∧
    ((build_ospf_area_change parsed3 new_area3 none none "dual").commands.length ≠ 1) := by
  refine ⟨?_, ?_, ?_⟩
  · intro hp hm
    have hres : resolveOspfTarget parsed none = (some pid, some o) := by
      simp [resolveOspfTarget, hp]
    rw [build_ospf_dual_eq, hres]
    cases hstmts : o.network_statements with
    | nil =>
      simp [ospfNetworkPhase, ospfIfacePhase, ospfFinalize, hstmts]
    | cons s ss =>
      have hfold := foldl_ospfStmtStep_all_matched parsed new_area o.network_statements hm
      have hlen : o.network_statements.length > 0 := by rw [hstmts]; simp
      simp [ospfNetworkPhase, ospfIfacePhase, ospfFinalize, hfold, hlen]
  · intro hp2 hif
    have hfind : parsed2.interfaces.find? (fun p => p.2.ospf_process_id.isSome) = none := by
      rw [List.find?_eq_none]
      intro q hq
      simp [hif q hq]
    have hres : resolveOspfTarget parsed2 none = (none, none) := by
      simp [resolveOspfTarget, hp2, hfind]
    rw [build_ospf_dual_eq, hres]
    exact ⟨rfl, rfl⟩
  · rw [build_ospf_dual_eq]
    rcases hpr : resolveOspfTarget parsed3 none with ⟨c1, c2⟩
    cases c1 with
    | none => simp
    | some pid3 =>
      exact ospfFinalize_length_ne_one _ pid3
        (ospfIfaceNetwork_shape parsed3 new_area3 none pid3 c2 _ true)

theorem C4_ospf_second_run_idempotent_witness :
    ((build_ospf_area_change
        { ospf_processes := [(1, { process_id := 1, network_statements :=
            [{ network := "10.0.0.0", wildcard := "0.255.255.255", area := 5 }] })] }
        5 none none "dual").commands = [] ∧
     (build_ospf_area_change
        { ospf_processes := [(1, { process_id := 1, network_statements :=
            [{ network := "10.0.0.0", wildcard := "0.255.255.255", area := 5 }] })] }
        5 none none "dual").rollback_commands = [] ∧
     ("No OSPF changes needed (all statements already in target area)" ∈
        (build_ospf_area_change
          { ospf_processes := [(1, { process_id := 1, network_statements :=
              [{ network := "10.0.0.0", wildcard := "0.255.255.255", area := 5 }] })] }
          5 none none "dual").warnings ∨
      "No OSPF configuration found to modify" ∈
        (build_ospf_area_change
          { ospf_processes := [(1, { process_id := 1, network_statements :=
              [{ network := "10.0.0.0", wildcard := "0.255.255.255", area := 5 }] })] }
          5 none none "dual").warnings)) ∧
    ((build_ospf_area_change {} 5 none none "dual").commands = [] ∧
     (build_ospf_area_change {} 5 none none "dual").warnings =
       ["No OSPF process found in running config"]) ∧
    ((build_ospf_area_change
        { ospf_processes := [(1, { process_id := 1, network_statements :=
            [{ network := "10.0.0.0", wildcard := "0.255.255.255", area := 5 }] })] }
        7 none none "dual").commands.length ≠ 1) := by
  have h := C4_ospf_second_run_idempotent
    { ospf_processes := [(1, { process_id := 1, network_statements :=
        [{ network := "10.0.0.0", wildcard := "0.255.255.255", area := 5 }] })] }
    {}
    { ospf_processes := [(1, { process_id := 1, network_statements :=
        [{ network := "10.0.0.0", wildcard := "0.255.255.255", area := 5 }] })] }
    5 7 1
    { process_id := 1, network_statements :=
        [{ network := "10.0.0.0", wildcard := "0.255.255.255", area := 5 }] }
    []
  exact ⟨h.1 rfl (by decide), h.2.1 rfl (by decide), h.2.2⟩

theorem ospfFinalize_of_two_le (r : ConfigChangeResult) (pid : Nat)
    (h : 2 ≤ r.commands.length) : ospfFinalize r pid = r := by
  have h1 : ¬ r.commands = [] := by
    intro he
    rw [he] at h
    simp at h
  have h2 : ¬ r.commands = ["router ospf " ++ toString pid] := by
    intro he
    rw [he] at h
    simp at h
  simp only [ospfFinalize]
  rw [if_neg h1, if_neg h2]

theorem ospfFinalize_affected (r : ConfigChangeResult) (pid : Nat) :
    (ospfFinalize r pid).affected_interfaces = r.affected_interfaces := by
  simp only [ospfFinalize]
  split_ifs <;> rfl

theorem build_ospf_dual_eq_some (parsed : ParsedConfig) (n : Nat)
    (t : Option (List String)) (pid : Nat) (o : OSPFProcessConfig)
    (hres : resolveOspfTarget parsed none = (some pid, some o)) :
    build_ospf_area_change parsed n none t "dual" =
      ospfFinalize
        (ospfIfacePhase
          (ospfNetworkPhase parsed n t pid (some o)
            (decide (o.network_statements.length > 0))) pid n true) pid := by
  rw [build_ospf_dual_eq, hres]

/-- C3.  For a parsed config whose first OSPF process is (pid, o), the
dual-strategy area-change builder emits, for every network statement not
already in the target area, the adjacent command pair removing the old-area
statement and adding the new-area statement, with the exactly reversed pair
in the rollback list; for every affected interface it emits the interface
selection command and the interface-level area command, with the rollback
restoring the interface's old area; and on a config with exactly one
network statement in area 0 and target area 10 the result is exactly the
router-ospf header followed by that one remove/add pair, with the rollback
reversing it to restore area 0. -/
theorem C3_ospf_area_change_emission (parsed : ParsedConfig) (new_area pid : Nat)
    (o : OSPFProcessConfig) (rest : List (Nat × OSPFProcessConfig))
    (hp : parsed.ospf_processes = (pid, o) :: rest) :
    (∀ stmt ∈ o.network_statements, stmt.area ≠ new_area →
      List.IsInfix
        [" no network " ++ stmt.network ++ " " ++ stmt.wildcard ++ " area " ++ toString stmt.area,
         " network " ++ stmt.network ++ " " ++ stmt.wildcard ++ " area " ++ toString new_area]
        (build_ospf_area_change parsed new_area none none "dual").commands ∧
      List.IsInfix
        [" no network " ++ stmt.network ++ " " ++ stmt.wildcard ++ " area " ++ toString new_area,
         " network " ++ stmt.network ++ " " ++ stmt.wildcard ++ " area " ++ toString stmt.area]
        (build_ospf_area_change parsed new_area none none "dual").rollback_commands) ∧
    (∀ ai ∈ (build_ospf_area_change parsed new_area none none "dual").affected_interfaces,
      "interface " ++ ai.name ∈
        (build_ospf_area_change parsed new_area none none "dual").commands ∧
      " ip ospf " ++ toString pid ++ " area " ++ toString new_area ∈
        (build_ospf_area_change parsed new_area none none "dual").commands ∧
      "interface " ++ ai.name ∈
        (build_ospf_area_change parsed new_area none none "dual").rollback_commands ∧
      " ip ospf " ++ toString pid ++ " area " ++ toString ai.current_area ∈
        (build_ospf_area_change parsed new_area none none "dual").rollback_commands) ∧
    ((build_ospf_area_change
        { ospf_processes := [(1, { process_id := 1, network_statements :=
            [{ network := "10.0.0.0", wildcard := "0.255.255.255", area := 0 }] })] }
        10 none none "dual").commands =
        ["router ospf 1",
         " no network 10.0.0.0 0.255.255.255 area 0",
         " network 10.0.0.0 0.255.255.255 area 10"] ∧
     (build_ospf_area_change
        { ospf_processes := [(1, { process_id := 1, network_statements :=
            [{ network := "10.0.0.0", wildcard := "0.255.255.255", area := 0 }] })] }
        10 none none "dual").rollback_commands =
        ["router ospf 1",
         " no network 10.0.0.0 0.255.255.255 area 10",
         " network 10.0.0.0 0.255.255.255 area 0"]) := by
  have hres : resolveOspfTarget parsed none = (some pid, some o) := by
    simp [resolveOspfTarget, hp]
  refine ⟨?_, ?_, by decide⟩
  · intro stmt hmem hne
    have hlen : o.network_statements.length > 0 :=
      List.length_pos.mpr (List.ne_nil_of_mem hmem)
    have huns : decide (o.network_statements.length > 0) = true := by simp [hlen]
    rw [build_ospf_dual_eq_some parsed new_area none pid o hres, huns]
    have hinf := foldl_ospfStmtStep_emit_infix parsed new_area o.network_statements stmt
      hmem hne
      { commands := ["router ospf " ++ toString pid],
        rollback_commands := ["router ospf " ++ toString pid],
        ospf_process_id := some pid }
    obtain ⟨d, dr, hc, hr, ha⟩ :=
      ospfIfacePhase_append (ospfNetworkPhase parsed new_area none pid (some o) true)
        pid new_area true
    have hinfc : List.IsInfix
        [" no network " ++ stmt.network ++ " " ++ stmt.wildcard ++ " area " ++ toString stmt.area,
         " network " ++ stmt.network ++ " " ++ stmt.wildcard ++ " area " ++ toString new_area]
        (ospfIfacePhase (ospfNetworkPhase parsed new_area none pid (some o) true)
          pid new_area true).commands := by
      rw [hc]
      exact (hinf.1).trans (List.prefix_append _ _).isInfix
    have hinfr : List.IsInfix
        [" no network " ++ stmt.network ++ " " ++ stmt.wildcard ++ " area " ++ toString new_area,
         " network " ++ stmt.network ++ " " ++ stmt.wildcard ++ " area " ++ toString stmt.area]
        (ospfIfacePhase (ospfNetworkPhase parsed new_area none pid (some o) true)
          pid new_area true).rollback_commands := by
      rw [hr]
      exact (hinf.2).trans (List.prefix_append _ _).isInfix
    rw [ospfFinalize_of_two_le _ pid (by simpa using hinfc.length_le)]
    exact ⟨hinfc, hinfr⟩
  · intro ai hai
    rw [build_ospf_dual_eq_some parsed new_area none pid o hres] at hai ⊢
    rw [ospfFinalize_affected] at hai
    cases hu : decide (o.network_statements.length > 0) with
    | false =>
      have h0 : o.network_statements.length = 0 := by
        have := of_decide_eq_false hu
        omega
      simp [ospfIfacePhase, ospfNetworkPhase, h0] at hai
    | true =>
      rw [hu] at hai
      by_cases hna : (ospfNetworkPhase parsed new_area none pid (some o) true).affected_interfaces = []
      · rw [ospfIfacePhase_of_no_affected _ _ _ _ hna, hna] at hai
        exact absurd hai (List.not_mem_nil ai)
      · have heq : ospfIfacePhase (ospfNetworkPhase parsed new_area none pid (some o) true)
            pid new_area true =
            { ospfNetworkPhase parsed new_area none pid (some o) true with
              commands := (ospfNetworkPhase parsed new_area none pid (some o) true).commands ++
                (_generate_interface_ospf_commands
                  (ospfNetworkPhase parsed new_area none pid (some o) true).affected_interfaces
                  pid new_area).1,
              rollback_commands :=
                (ospfNetworkPhase parsed new_area none pid (some o) true).rollback_commands ++
                (_generate_interface_ospf_commands
                  (ospfNetworkPhase parsed new_area none pid (some o) true).affected_interfaces
                  pid new_area).2 } := by
          simp [ospfIfacePhase, hna]
        have hai2 : ai ∈ (ospfNetworkPhase parsed new_area none pid (some o) true).affected_interfaces := by
          rw [heq] at hai
          exact hai
        have hm1 : "interface " ++ ai.name ∈
            (_generate_interface_ospf_commands
              (ospfNetworkPhase parsed new_area none pid (some o) true).affected_interfaces
              pid new_area).1 := by
          rw [generate_iface_commands_eq]
          exact List.mem_bind.mpr ⟨ai, hai2, by simp⟩
        have hm2 : " ip ospf " ++ toString pid ++ " area " ++ toString new_area ∈
            (_generate_interface_ospf_commands
              (ospfNetworkPhase parsed new_area none pid (some o) true).affected_interfaces
              pid new_area).1 := by
          rw [generate_iface_commands_eq]
          exact List.mem_bind.mpr ⟨ai, hai2, by simp⟩
        have hm3 : "interface " ++ ai.name ∈
            (_generate_interface_ospf_commands
              (ospfNetworkPhase parsed new_area none pid (some o) true).affected_interfaces
              pid new_area).2 := by
          rw [generate_iface_commands_eq]
          exact List.mem_bind.mpr ⟨ai, hai2, by simp⟩
        have hm4 : " ip ospf " ++ toString pid ++ " area " ++ toString ai.current_area ∈
            (_generate_interface_ospf_commands
              (ospfNetworkPhase parsed new_area none pid (some o) true).affected_interfaces
              pid new_area).2 := by
          rw [generate_iface_commands_eq]
          exact List.mem_bind.mpr ⟨ai, hai2, by simp⟩
        have hlen2 : 2 ≤ (ospfIfacePhase (ospfNetworkPhase parsed new_area none pid (some o) true)
            pid new_area true).commands.length := by
          rw [heq]
          simp only [List.length_append]
          obtain ⟨dc, dr0, da, hdc, _, _⟩ := foldl_ospfStmtStep_append parsed new_area none
            o.network_statements
            { commands := ["router ospf " ++ toString pid],
              rollback_commands := ["router ospf " ++ toString pid],
              ospf_process_id := some pid }
          have hnc : (ospfNetworkPhase parsed new_area none pid (some o) true).commands =
              ["router ospf " ++ toString pid] ++ dc := hdc
          have hg1 : 0 < (_generate_interface_ospf_commands
              (ospfNetworkPhase parsed new_area none pid (some o) true).affected_interfaces
              pid new_area).1.length :=
            List.length_pos.mpr (List.ne_nil_of_mem hm1)
          rw [hnc]
          simp only [List.length_append, List.length_cons, List.length_nil]
          omega
        rw [ospfFinalize_of_two_le _ pid hlen2, heq]
        refine ⟨List.mem_append.mpr (Or.inr hm1), List.mem_append.mpr (Or.inr hm2),
          List.mem_append.mpr (Or.inr hm3), List.mem_append.mpr (Or.inr hm4)⟩

theorem C3_ospf_area_change_emission_witness :
    ((∀ stmt ∈ ({ process_id := 1, network_statements :=
          [{ network := "10.0.0.0", wildcard := "0.255.255.255", area := 0 }] } :
            OSPFProcessConfig).network_statements, stmt.area ≠ 10 →
      List.IsInfix
        [" no network " ++ stmt.network ++ " " ++ stmt.wildcard ++ " area " ++ toString stmt.area,
         " network " ++ stmt.network ++ " " ++ stmt.wildcard ++ " area " ++ toString 10]
        (build_ospf_area_change
          { ospf_processes := [(1, { process_id := 1, network_statements :=
              [{ network := "10.0.0.0", wildcard := "0.255.255.255", area := 0 }] })] }
          10 none none "dual").commands ∧
      List.IsInfix
        [" no network " ++ stmt.network ++ " " ++ stmt.wildcard ++ " area " ++ toString 10,
         " network " ++ stmt.network ++ " " ++ stmt.wildcard ++ " area " ++ toString stmt.area]
        (build_ospf_area_change
          { ospf_processes := [(1, { process_id := 1, network_statements :=
              [{ network := "10.0.0.0", wildcard := "0.255.255.255", area := 0 }] })] }
          10 none none "dual").rollback_commands)) ∧
    ((build_ospf_area_change
        { ospf_processes := [(1, { process_id := 1, network_statements :=
            [{ network := "10.0.0.0", wildcard := "0.255.255.255", area := 0 }] })] }
        10 none none "dual").commands =
        ["router ospf 1",
         " no network 10.0.0.0 0.255.255.255 area 0",
         " network 10.0.0.0 0.255.255.255 area 10"]) := by
  have h := C3_ospf_area_change_emission
    { ospf_processes := [(1, { process_id := 1, network_statements :=
        [{ network := "10.0.0.0", wildcard := "0.255.255.255", area := 0 }] })] }
    10 1
    { process_id := 1, network_statements :=
        [{ network := "10.0.0.0", wildcard := "0.255.255.255", area := 0 }] }
    [] rfl
  exact ⟨h.1, h.2.2.1⟩

theorem aclBindStep_parts (parsed : ParsedConfig) (a dir : String)
    (acc : ConfigChangeResult) (i : String) :
    (aclBindStep parsed a dir acc i).commands =
      acc.commands ++ ["interface " ++ i, " ip access-group " ++ a ++ " " ++ dir] ∧
    ∃ dr dw,
      (aclBindStep parsed a dir acc i).rollback_commands =
        acc.rollback_commands ++
          ["interface " ++ i, " no ip access-group " ++ a ++ " " ++ dir] ++ dr ∧
      (aclBindStep parsed a dir acc i).warnings = acc.warnings ++ dw := by
  simp only [aclBindStep]
  split_ifs
  · exact ⟨rfl, _, _, rfl, rfl⟩
  · exact ⟨rfl, [], [], by simp, by simp⟩

theorem aclBindStep_existing (parsed : ParsedConfig) (a dir : String)
    (acc : ConfigChangeResult) (i : String)
    (he : truthyS (aclExisting parsed dir i) = true) :
    (aclBindStep parsed a dir acc i).rollback_commands =
      acc.rollback_commands ++
        ["interface " ++ i, " no ip access-group " ++ a ++ " " ++ dir,
         " ip access-group " ++ (aclExisting parsed dir i).getD "" ++ " " ++ dir] ∧
    (aclBindStep parsed a dir acc i).warnings =
      acc.warnings ++
        ["Interface " ++ i ++ " had existing ACL \x27" ++
         (aclExisting parsed dir i).getD "" ++ "\x27 (" ++ dir ++ "), will be replaced"] := by
  simp [aclBindStep, he]

theorem foldl_aclBindStep_append (parsed : ParsedConfig) (a dir : String)
    (targets : List String) :
    ∀ acc : ConfigChangeResult, ∃ d dr dw,
      (targets.foldl (aclBindStep parsed a dir) acc).commands = acc.commands ++ d ∧
      (targets.foldl (aclBindStep parsed a dir) acc).rollback_commands =
        acc.rollback_commands ++ dr ∧
      (targets.foldl (aclBindStep parsed a dir) acc).warnings = acc.warnings ++ dw := by
  induction targets with
  | nil => exact fun acc => ⟨[], [], [], by simp, by simp, by simp⟩
  | cons t ts ih =>
    intro acc
    obtain ⟨hc1, dr1, dw1, hr1, hw1⟩ := aclBindStep_parts parsed a dir acc t
    obtain ⟨d2, dr2, dw2, hc2, hr2, hw2⟩ := ih (aclBindStep parsed a dir acc t)
    refine ⟨["interface " ++ t, " ip access-group " ++ a ++ " " ++ dir] ++ d2,
      ["interface " ++ t, " no ip access-group " ++ a ++ " " ++ dir] ++ dr1 ++ dr2,
      dw1 ++ dw2, ?_, ?_, ?_⟩
    · rw [List.foldl_cons, hc2, hc1, List.append_assoc]
    · rw [List.foldl_cons, hr2, hr1]
      simp [List.append_assoc]
    · rw [List.foldl_cons, hw2, hw1, List.append_assoc]

theorem foldl_aclBindStep_mem (parsed : ParsedConfig) (a dir : String)
    (targets : List String) (i : String) (hmem : i ∈ targets) :
    ∀ acc : ConfigChangeResult,
      "interface " ++ i ∈ (targets.foldl (aclBindStep parsed a dir) acc).commands ∧
      " ip access-group " ++ a ++ " " ++ dir ∈
        (targets.foldl (aclBindStep parsed a dir) acc).commands ∧
      "interface " ++ i ∈ (targets.foldl (aclBindStep parsed a dir) acc).rollback_commands ∧
      " no ip access-group " ++ a ++ " " ++ dir ∈
        (targets.foldl (aclBindStep parsed a dir) acc).rollback_commands ∧
      (truthyS (aclExisting parsed dir i) = true →
        " ip access-group " ++ (aclExisting parsed dir i).getD "" ++ " " ++ dir ∈
          (targets.foldl (aclBindStep parsed a dir) acc).rollback_commands ∧
        "Interface " ++ i ++ " had existing ACL \x27" ++
          (aclExisting parsed dir i).getD "" ++ "\x27 (" ++ dir ++ "), will be replaced" ∈
          (targets.foldl (aclBindStep parsed a dir) acc).warnings) := by
  induction targets with
  | nil => exact absurd hmem (List.not_mem_nil i)
  | cons t ts ih =>
    intro acc
    rcases List.mem_cons.mp hmem with heq | h2
    · subst heq
      obtain ⟨d, dr, dw, hc, hr, hw⟩ :=
        foldl_aclBindStep_append parsed a dir ts (aclBindStep parsed a dir acc i)
      rw [List.foldl_cons, hc, hr, hw]
      obtain ⟨hsc, dr0, dw0, hsr, hsw⟩ := aclBindStep_parts parsed a dir acc i
      refine ⟨?_, ?_, ?_, ?_, ?_⟩
      · rw [hsc]
        simp
      · rw [hsc]
        simp
      · rw [hsr]
        simp
      · rw [hsr]
        simp
      · intro he
        obtain ⟨her, hew⟩ := aclBindStep_existing parsed a dir acc i he
        rw [her, hew]
        constructor
        · simp
        · simp
    · exact ih h2 (aclBindStep parsed a dir acc t)

/-- C6 counterexample.  An interface that is active (not shutdown) and has
an IP address but whose name does not start with GigabitEthernet is not
bound by build_security_acl when no explicit interface subset is given, so
the claim that the ACL is bound to every currently-active IP-addressed
interface is false: the binding loop also filters on the name prefix. -/
theorem C6_counterexample_nongig_not_bound :
    ({ name := "Ethernet0/0", ip_address := some "10.0.0.1" : InterfaceConfig }).shutdown
        = false ∧
    truthyS ({ name := "Ethernet0/0", ip_address := some "10.0.0.1" :
        InterfaceConfig }).ip_address = true ∧
    "interface Ethernet0/0" ∉
      (build_security_acl
        { interfaces := [("Ethernet0/0",
            { name := "Ethernet0/0", ip_address := some "10.0.0.1" })] }
        "SEC_ACL" [] none "in").commands ∧
    "No active GigabitEthernet interfaces found for ACL application" ∈
      (build_security_acl
        { interfaces := [("Ethernet0/0",
            { name := "Ethernet0/0", ip_address := some "10.0.0.1" })] }
        "SEC_ACL" [] none "in").warnings := by decide

/-- C6 (amended).  build_security_acl emits the named extended ACL header,
one line per given rule, and the final permit-ip-any-any tail, followed by
the interface bindings; its rollback starts by deleting the ACL; and every
interface that passes the default filter — name starting with
GigabitEthernet, not shutdown, IP address present — is bound, with the
rollback removing the new binding, and when that interface previously had
an ACL bound in the given direction the rollback re-binds the prior ACL and
a replacement warning is recorded.  (The claim as stated omits the
GigabitEthernet name filter; see the counterexample.) -/
theorem C6_security_acl_build (parsed : ParsedConfig) (a dir : String)
    (rules : List AclRuleParam) (iname : String) (iface : InterfaceConfig) :
    (∃ bindTail, (build_security_acl parsed a rules none dir).commands =
        ("ip access-list extended " ++ a) :: rules.map aclRuleLine ++
          [" permit ip any any"] ++ bindTail) ∧
    (∃ rbTail, (build_security_acl parsed a rules none dir).rollback_commands =
        ("no ip access-list extended " ++ a) :: rbTail) ∧
    (alistGet iname parsed.interfaces = some iface →
     pyStartsWith iname "GigabitEthernet" = true →
     iface.shutdown = false →
     truthyS iface.ip_address = true →
      ("interface " ++ iname ∈ (build_security_acl parsed a rules none dir).commands ∧
       " ip access-group " ++ a ++ " " ++ dir ∈
          (build_security_acl parsed a rules none dir).commands ∧
       "interface " ++ iname ∈ (build_security_acl parsed a rules none dir).rollback_commands ∧
       " no ip access-group " ++ a ++ " " ++ dir ∈
          (build_security_acl parsed a rules none dir).rollback_commands ∧
       (truthyS (aclExisting parsed dir iname) = true →
        " ip access-group " ++ (aclExisting parsed dir iname).getD "" ++ " " ++ dir ∈
          (build_security_acl parsed a rules none dir).rollback_commands ∧
        "Interface " ++ iname ++ " had existing ACL \x27" ++
          (aclExisting parsed dir iname).getD "" ++ "\x27 (" ++ dir ++
          "), will be replaced" ∈
          (build_security_acl parsed a rules none dir).warnings))) := by
  have hb : build_security_acl parsed a rules none dir =
      (defaultAclTargets parsed).foldl (aclBindStep parsed a dir)
        { commands := ("ip access-list extended " ++ a) ::
            rules.map aclRuleLine ++ [" permit ip any any"],
          rollback_commands := ["no ip access-list extended " ++ a],
          warnings := if defaultAclTargets parsed = []
            then ["No active GigabitEthernet interfaces found for ACL application"]
            else [] } := rfl
  refine ⟨?_, ?_, ?_⟩
  · obtain ⟨d, dr, dw, hc, hr, hw⟩ :=
      foldl_aclBindStep_append parsed a dir (defaultAclTargets parsed)
        { commands := ("ip access-list extended " ++ a) ::
            rules.map aclRuleLine ++ [" permit ip any any"],
          rollback_commands := ["no ip access-list extended " ++ a],
          warnings := if defaultAclTargets parsed = []
            then ["No active GigabitEthernet interfaces found for ACL application"]
            else [] }
    refine ⟨d, ?_⟩
    rw [hb, hc]
  · obtain ⟨d, dr, dw, hc, hr, hw⟩ :=
      foldl_aclBindStep_append parsed a dir (defaultAclTargets parsed)
        { commands := ("ip access-list extended " ++ a) ::
            rules.map aclRuleLine ++ [" permit ip any any"],
          rollback_commands := ["no ip access-list extended " ++ a],
          warnings := if defaultAclTargets parsed = []
            then ["No active GigabitEthernet interfaces found for ACL application"]
            else [] }
    refine ⟨dr, ?_⟩
    rw [hb, hr]
    simp
  · intro h1 h2 h3 h4
    have hmemT : iname ∈ defaultAclTargets parsed := by
      unfold defaultAclTargets
      refine List.mem_map.mpr ⟨(iname, iface), List.mem_filter.mpr ⟨alistGet_mem h1, ?_⟩, rfl⟩
      simp [h2, h3, h4]
    have hall := foldl_aclBindStep_mem parsed a dir (defaultAclTargets parsed) iname hmemT
      { commands := ("ip access-list extended " ++ a) ::
          rules.map aclRuleLine ++ [" permit ip any any"],
        rollback_commands := ["no ip access-list extended " ++ a],
        warnings := if defaultAclTargets parsed = []
          then ["No active GigabitEthernet interfaces found for ACL application"]
          else [] }
    rw [hb]
    exact hall

theorem C6_security_acl_build_witness :
    (∃ bindTail,
      (build_security_acl
        { interfaces := [("GigabitEthernet1",
            { name := "GigabitEthernet1", ip_address := some "10.0.0.1",
              acl_in := some "OLD_ACL" })] }
        "SEC_ACL" [] none "in").commands =
        ("ip access-list extended " ++ "SEC_ACL") :: List.map aclRuleLine [] ++
          [" permit ip any any"] ++ bindTail) ∧
    "interface " ++ "GigabitEthernet1" ∈
      (build_security_acl
        { interfaces := [("GigabitEthernet1",
            { name := "GigabitEthernet1", ip_address := some "10.0.0.1",
              acl_in := some "OLD_ACL" })] }
        "SEC_ACL" [] none "in").commands ∧
    " ip access-group " ++
      (aclExisting
        { interfaces := [("GigabitEthernet1",
            { name := "GigabitEthernet1", ip_address := some "10.0.0.1",
              acl_in := some "OLD_ACL" })] }
        "in" "GigabitEthernet1").getD "" ++ " " ++ "in" ∈
      (build_security_acl
        { interfaces := [("GigabitEthernet1",
            { name := "GigabitEthernet1", ip_address := some "10.0.0.1",
              acl_in := some "OLD_ACL" })] }
        "SEC_ACL" [] none "in").rollback_commands ∧
    "Interface " ++ "GigabitEthernet1" ++ " had existing ACL \x27" ++
      (aclExisting
        { interfaces := [("GigabitEthernet1",
            { name := "GigabitEthernet1", ip_address := some "10.0.0.1",
              acl_in := some "OLD_ACL" })] }
        "in" "GigabitEthernet1").getD "" ++ "\x27 (" ++ "in" ++ "), will be replaced" ∈
      (build_security_acl
        { interfaces := [("GigabitEthernet1",
            { name := "GigabitEthernet1", ip_address := some "10.0.0.1",
              acl_in := some "OLD_ACL" })] }
        "SEC_ACL" [] none "in").warnings := by
  have h := C6_security_acl_build
    { interfaces := [("GigabitEthernet1",
        { name := "GigabitEthernet1", ip_address := some "10.0.0.1",
          acl_in := some "OLD_ACL" })] }
    "SEC_ACL" "in" [] "GigabitEthernet1"
    { name := "GigabitEthernet1", ip_address := some "10.0.0.1", acl_in := some "OLD_ACL" }
  have h3 := h.2.2 (by decide) (by decide) (by decide) (by decide)
  exact ⟨h.1, h3.1, (h3.2.2.2.2 (by decide)).1, (h3.2.2.2.2 (by decide)).2⟩

-- =========================================================================
-- C10: parser totality
-- =========================================================================

theorem pyInt_of_takeDigits1 {l : List Char} {s : String} {r : List Char}
    (h : takeDigits1 l = some (s, r)) : ∃ n, pyInt? s = some n := by
  simp only [takeDigits1] at h
  split_ifs at h with hds
  obtain ⟨hs, hr⟩ := Prod.mk.injEq .. ▸ Option.some_inj.mp h
  have hne : s.data ≠ [] := by
    rw [← hs]
    simpa [List.isEmpty_iff] using hds
  have hall : s.data.all Char.isDigit = true := by
    rw [← hs]
    simp only [List.all_eq_true]
    intro c hc
    exact List.mem_takeWhile_imp hc
  exact ⟨s.data.foldl (fun acc c => 10 * acc + (c.toNat - 48)) 0, by simp [pyInt?, hne, hall]⟩

theorem matchRouterOspf_digits {line : String} {s : String}
    (h : matchRouterOspf line = some s) : ∃ l r, takeDigits1 l = some (s, r) := by
  unfold matchRouterOspf at h
  obtain ⟨r1, h1, h⟩ := Option.bind_eq_some.mp h
  obtain ⟨r2, h2, h⟩ := Option.bind_eq_some.mp h
  obtain ⟨r3, h3, h⟩ := Option.bind_eq_some.mp h
  obtain ⟨r4, h4, h⟩ := Option.bind_eq_some.mp h
  obtain ⟨⟨pid, r5⟩, h5, h⟩ := Option.bind_eq_some.mp h
  simp only [Option.pure_def, Option.some.injEq] at h
  subst h
  exact ⟨r4, r5, h5⟩

theorem matchOspfInterface_digits {line : String} {s t : String}
    (h : matchOspfInterface line = some (s, t)) :
    (∃ l r, takeDigits1 l = some (s, r)) ∧ ∃ l r, takeDigits1 l = some (t, r) := by
  unfold matchOspfInterface at h
  obtain ⟨r1, h1, h⟩ := Option.bind_eq_some.mp h
  obtain ⟨r2, h2, h⟩ := Option.bind_eq_some.mp h
  obtain ⟨r3, h3, h⟩ := Option.bind_eq_some.mp h
  obtain ⟨r4, h4, h⟩ := Option.bind_eq_some.mp h
  obtain ⟨r5, h5, h⟩ := Option.bind_eq_some.mp h
  obtain ⟨⟨pid, r6⟩, h6, h⟩ := Option.bind_eq_some.mp h
  obtain ⟨r7, h7, h⟩ := Option.bind_eq_some.mp h
  obtain ⟨r8, h8, h⟩ := Option.bind_eq_some.mp h
  obtain ⟨r9, h9, h⟩ := Option.bind_eq_some.mp h
  obtain ⟨⟨area, r10⟩, h10, h⟩ := Option.bind_eq_some.mp h
  simp only [Option.pure_def, Option.some.injEq, Prod.mk.injEq] at h
  obtain ⟨hp, ha⟩ := h
  subst hp
  subst ha
  exact ⟨⟨r5, r6, h6⟩, ⟨r9, r10, h10⟩⟩

theorem matchNetworkStmt_digits {line : String} {net wild area : String}
    (h : matchNetworkStmt line = some (net, wild, area)) :
    ∃ l r, takeDigits1 l = some (area, r) := by
  unfold matchNetworkStmt at h
  obtain ⟨r1, h1, h⟩ := Option.bind_eq_some.mp h
  obtain ⟨r2, h2, h⟩ := Option.bind_eq_some.mp h
  obtain ⟨r3, h3, h⟩ := Option.bind_eq_some.mp h
  obtain ⟨⟨n0, r4⟩, h4, h⟩ := Option.bind_eq_some.mp h
  obtain ⟨r5, h5, h⟩ := Option.bind_eq_some.mp h
  obtain ⟨⟨w0, r6⟩, h6, h⟩ := Option.bind_eq_some.mp h
  obtain ⟨r7, h7, h⟩ := Option.bind_eq_some.mp h
  obtain ⟨r8, h8, h⟩ := Option.bind_eq_some.mp h
  obtain ⟨r9, h9, h⟩ := Option.bind_eq_some.mp h
  obtain ⟨⟨a0, r10⟩, h10, h⟩ := Option.bind_eq_some.mp h
  simp only [Option.pure_def, Option.some.injEq, Prod.mk.injEq] at h
  obtain ⟨hn, hw, ha⟩ := h
  subst ha
  exact ⟨r9, r10, h10⟩

theorem matchEnableSecret_digits {line : String} {st sh : String}
    (h : matchEnableSecret line = some (st, sh)) :
    ∃ l r, takeDigits1 l = some (st, r) := by
  unfold matchEnableSecret at h
  obtain ⟨r1, h1, h⟩ := Option.bind_eq_some.mp h
  obtain ⟨r2, h2, h⟩ := Option.bind_eq_some.mp h
  obtain ⟨r3, h3, h⟩ := Option.bind_eq_some.mp h
  obtain ⟨r4, h4, h⟩ := Option.bind_eq_some.mp h
  obtain ⟨⟨st0, r5⟩, h5, h⟩ := Option.bind_eq_some.mp h
  obtain ⟨r6, h6, h⟩ := Option.bind_eq_some.mp h
  obtain ⟨⟨sh0, r7⟩, h7, h⟩ := Option.bind_eq_some.mp h
  simp only [Option.pure_def, Option.some.injEq, Prod.mk.injEq] at h
  obtain ⟨hs, hh⟩ := h
  subst hs
  exact ⟨r4, r5, h5⟩

theorem matchUsername_digits {line : String} {u : String} {priv : Option String}
    {st sh : String} (h : matchUsername line = some (u, priv, st, sh)) :
    (priv = none ∨ ∃ p, priv = some p ∧ ∃ l r, takeDigits1 l = some (p, r)) ∧
    ∃ l r, takeDigits1 l = some (st, r) := by
  unfold matchUsername at h
  obtain ⟨r1, h1, h⟩ := Option.bind_eq_some.mp h
  obtain ⟨r2, h2, h⟩ := Option.bind_eq_some.mp h
  obtain ⟨⟨u0, r3⟩, h3, h⟩ := Option.bind_eq_some.mp h
  obtain ⟨r4, h4, h⟩ := Option.bind_eq_some.mp h
  split at h
  next d r5 heq =>
    obtain ⟨r6, h6, h⟩ := Option.bind_eq_some.mp h
    obtain ⟨r7, h7, h⟩ := Option.bind_eq_some.mp h
    obtain ⟨⟨st0, r8⟩, h8, h⟩ := Option.bind_eq_some.mp h
    obtain ⟨r9, h9, h⟩ := Option.bind_eq_some.mp h
    obtain ⟨⟨sh0, r10⟩, h10, h⟩ := Option.bind_eq_some.mp h
    simp only [Option.pure_def, Option.some.injEq, Prod.mk.injEq] at h
    obtain ⟨hu, hp, hs, hh⟩ := h
    subst hp
    subst hs
    refine ⟨?_, r7, r8, h8⟩
    split at heq
    next d0 r20 hE =>
      injection heq with hd hr
      obtain ⟨a1, ha1, hE⟩ := Option.bind_eq_some.mp hE
      obtain ⟨a2, ha2, hE⟩ := Option.bind_eq_some.mp hE
      obtain ⟨⟨d1, a3⟩, ha3, hE⟩ := Option.bind_eq_some.mp hE
      obtain ⟨a4, ha4, hE⟩ := Option.bind_eq_some.mp hE
      simp only [Option.pure_def, Option.some.injEq, Prod.mk.injEq] at hE
      obtain ⟨hd1, hr2⟩ := hE
      exact Or.inr ⟨d0, hd.symm, a2, a3, hd1 ▸ ha3⟩
    next hE =>
      injection heq with hd hr
      exact Or.inl hd.symm

theorem mem_of_mem_pyStripData {c : Char} {l : List Char} (h : c ∈ pyStripData l) :
    c ∈ l := by
  simp only [pyStripData, List.mem_reverse] at h
  have h2 := (List.dropWhile_sublist _).subset h
  rw [List.mem_reverse] at h2
  exact (List.dropWhile_sublist _).subset h2

theorem mem_of_mem_pySplitWsAux {c : Char} :
    ∀ (l acc t : List Char), t ∈ pySplitWsAux l acc → c ∈ t → c ∈ l ∨ c ∈ acc := by
  intro l
  induction l with
  | nil =>
    intro acc t ht hc
    simp only [pySplitWsAux] at ht
    split_ifs at ht with ha
    · exact absurd ht (List.not_mem_nil t)
    · rw [List.mem_singleton] at ht
      subst ht
      exact Or.inr (List.mem_reverse.mp hc)
  | cons d ds ih =>
    intro acc t ht hc
    simp only [pySplitWsAux] at ht
    split_ifs at ht with hsp hae
    · rcases ih [] t ht hc with h | h
      · exact Or.inl (List.mem_cons_of_mem d h)
      · exact absurd h (List.not_mem_nil c)
    · rcases List.mem_cons.mp ht with heq | ht2
      · subst heq
        exact Or.inr (List.mem_reverse.mp hc)
      · rcases ih [] t ht2 hc with h | h
        · exact Or.inl (List.mem_cons_of_mem d h)
        · exact absurd h (List.not_mem_nil c)
    · rcases ih (d :: acc) t ht hc with h | h
      · exact Or.inl (List.mem_cons_of_mem d h)
      · rcases List.mem_cons.mp h with heq | h2
        · subst heq
          exact Or.inl (List.mem_cons_self c ds)
        · exact Or.inr h2

theorem mem_of_token_pySplitWs {s t : String} (ht : t ∈ pySplitWs s) {c : Char}
    (hc : c ∈ t.data) : c ∈ s.data := by
  simp only [pySplitWs, List.mem_map] at ht
  obtain ⟨td, htd, heq⟩ := ht
  subst heq
  rcases mem_of_mem_pySplitWsAux s.data [] td htd hc with h | h
  · exact h
  · exact absurd h (List.not_mem_nil c)

theorem mem_of_mem_splitOnChar {sep c : Char} :
    ∀ (l t : List Char), t ∈ splitOnChar sep l → c ∈ t → c ∈ l := by
  intro l
  induction l with
  | nil =>
    intro t ht hc
    simp only [splitOnChar, List.mem_singleton] at ht
    subst ht
    exact absurd hc (List.not_mem_nil c)
  | cons d ds ih =>
    intro t ht hc
    simp only [splitOnChar] at ht
    split_ifs at ht with hd
    · rcases List.mem_cons.mp ht with heq | ht2
      · subst heq
        exact absurd hc (List.not_mem_nil c)
      · exact List.mem_cons_of_mem d (ih t ht2 hc)
    · cases hrest : splitOnChar sep ds with
      | nil =>
        rw [hrest, List.mem_singleton] at ht
        subst ht
        rw [List.mem_singleton] at hc
        subst hc
        exact List.mem_cons_self c ds
      | cons r rs =>
        rw [hrest] at ht
        rcases List.mem_cons.mp ht with heq | ht2
        · subst heq
          rcases List.mem_cons.mp hc with heq2 | hc2
          · subst heq2
            exact List.mem_cons_self c ds
          · refine List.mem_cons_of_mem d (ih r ?_ hc2)
            rw [hrest]
            exact List.mem_cons_self r rs
        · refine List.mem_cons_of_mem d (ih t ?_ hc)
          rw [hrest]
          exact List.mem_cons_of_mem r ht2

theorem mem_line_pySplitLines {s line : String} (h : line ∈ pySplitLines s) {c : Char}
    (hc : c ∈ line.data) : c ∈ s.data := by
  simp only [pySplitLines, List.mem_map] at h
  obtain ⟨td, htd, heq⟩ := h
  subst heq
  exact mem_of_mem_splitOnChar s.data td htd hc

theorem string_data_append (a b : String) : (a ++ b).data = a.data ++ b.data := by
  cases a
  cases b
  rfl

theorem pyJoin_chars (sep : String) :
    ∀ (xs : List String) {c : Char}, c ∈ (pyJoin sep xs).data →
      (∃ x ∈ xs, c ∈ x.data) ∨ c ∈ sep.data := by
  intro xs
  induction xs with
  | nil =>
    intro c hc
    exact absurd hc (List.not_mem_nil c)
  | cons x ys ih =>
    intro c hc
    cases ys with
    | nil => exact Or.inl ⟨x, List.mem_singleton.mpr rfl, hc⟩
    | cons y zs =>
      simp only [pyJoin, string_data_append, List.mem_append] at hc
      rcases hc with (hx | hs) | hrest
      · exact Or.inl ⟨x, List.mem_cons_self x (y :: zs), hx⟩
      · exact Or.inr hs
      · rcases ih hrest with ⟨z, hz, hcz⟩ | hs
        · exact Or.inl ⟨z, List.mem_cons_of_mem x hz, hcz⟩
        · exact Or.inr hs

theorem cleanStep_acc (st : Bool × List String) (line : String) :
    (cleanStep st line).2.1 = st.2 ∨ (cleanStep st line).2.1 = st.2 ++ [line] := by
  obtain ⟨i, acc⟩ := st
  simp only [cleanStep]
  split_ifs <;> simp

theorem cleanLoop_mem {c0 : String} :
    ∀ (lines : List String) (st : Bool × List String),
      c0 ∈ cleanLoop st lines → c0 ∈ st.2 ∨ c0 ∈ lines := by
  intro lines
  induction lines with
  | nil =>
    intro st h
    exact Or.inl h
  | cons x xs ih =>
    intro st h
    simp only [cleanLoop] at h
    rcases hcs : cleanStep st x with ⟨i2, a2, brk⟩
    rw [hcs] at h
    have hacc : a2 = st.2 ∨ a2 = st.2 ++ [x] := by
      have := cleanStep_acc st x
      rw [hcs] at this
      exact this
    cases brk with
    | true =>
      simp only [if_pos] at h
      rcases hacc with ha | ha <;> rw [ha] at h
      · exact Or.inl h
      · rcases List.mem_append.mp h with h2 | h2
        · exact Or.inl h2
        · rw [List.mem_singleton] at h2
          subst h2
          exact Or.inr (List.mem_cons_self c0 xs)
    | false =>
      simp only [if_neg Bool.false_ne_true] at h
      rcases ih (i2, a2) h with h2 | h2
      · rcases hacc with ha | ha <;> rw [ha] at h2
        · exact Or.inl h2
        · rcases List.mem_append.mp h2 with h3 | h3
          · exact Or.inl h3
          · rw [List.mem_singleton] at h3
            subst h3
            exact Or.inr (List.mem_cons_self c0 xs)
      · exact Or.inr (List.mem_cons_of_mem x h2)

theorem clean_config_chars {raw : String} {c : Char}
    (h : c ∈ (_clean_config_output raw).data) : c ∈ raw.data ∨ c = Char.ofNat 10 := by
  simp only [_clean_config_output] at h
  split_ifs at h with hne
  · rcases pyJoin_chars "\n" (cleanLoop (false, []) (pySplitLines raw)) h with ⟨x, hx, hcx⟩ | hs
    · rcases cleanLoop_mem (pySplitLines raw) (false, []) hx with h2 | h2
      · exact absurd h2 (List.not_mem_nil x)
      · exact Or.inl (mem_line_pySplitLines h2 hcx)
    · rw [List.mem_singleton] at hs
      exact Or.inr hs
  · exact Or.inl h

theorem stepLineSection_isSome (parsed : ParsedConfig) (sec : CfgSection) (line : String)
    (hline : ∀ c ∈ line.data, pyIsDigitChar c = true → c.isDigit = true) :
    (stepLineSection parsed sec line).isSome = true := by
  cases sec with
  | top => rfl
  | iface iname =>
    simp only [stepLineSection]
    cases h1 : matchIpAddress line with
    | some p =>
      obtain ⟨ip, mask⟩ := p
      rfl
    | none =>
    cases h2 : matchDescription line with
    | some d => rfl
    | none =>
    cases h3 : matchShutdown line with
    | true => rfl
    | false =>
    simp only [Bool.false_eq_true, if_false]
    cases h4 : matchOspfInterface line with
    | some p =>
      obtain ⟨pidStr, areaStr⟩ := p
      dsimp only
      obtain ⟨hp, ha⟩ := matchOspfInterface_digits h4
      obtain ⟨l1, r1, ht1⟩ := hp
      obtain ⟨l2, r2, ht2⟩ := ha
      obtain ⟨n1, hn1⟩ := pyInt_of_takeDigits1 ht1
      obtain ⟨n2, hn2⟩ := pyInt_of_takeDigits1 ht2
      rw [hn1, hn2]
      rfl
    | none =>
    cases h5 : matchOspfNetworkType line with
    | some t => rfl
    | none =>
    cases h6 : matchAclGroup line with
    | some p =>
      obtain ⟨aclName, dir⟩ := p
      dsimp only
      by_cases hd : dir = "in"
      · rw [if_pos hd]
        rfl
      · rw [if_neg hd]
        rfl
    | none => rfl
  | routerOspf pid =>
    simp only [stepLineSection]
    cases h1 : matchRouterId line with
    | some rid => rfl
    | none =>
    cases h2 : matchNetworkStmt line with
    | some p =>
      obtain ⟨net, p2⟩ := p
      obtain ⟨wild, areaStr⟩ := p2
      dsimp only
      obtain ⟨l1, r1, ht1⟩ := matchNetworkStmt_digits h2
      obtain ⟨n1, hn1⟩ := pyInt_of_takeDigits1 ht1
      rw [hn1]
      rfl
    | none =>
    cases h3 : matchPassiveIntf line with
    | some n => rfl
    | none => rfl
  | acl aname =>
    simp only [stepLineSection]
    by_cases hst : pyStrip line ≠ "" ∧ ¬ pyStartsWith (pyStrip line) "!"
    · rw [if_pos hst]
      cases hsp : pySplitWs (pyStrip line) with
      | nil => rfl
      | cons p0 rest =>
        dsimp only
        by_cases hpd : p0 = "permit" ∨ p0 = "deny"
        · rw [if_pos hpd]
          rfl
        · rw [if_neg hpd]
          by_cases hdig : p0.data ≠ [] ∧ p0.data.all pyIsDigitChar
          · rw [if_pos hdig]
            have hall : p0.data.all Char.isDigit = true := by
              simp only [List.all_eq_true]
              intro c hc
              have hp0 : p0 ∈ pySplitWs (pyStrip line) := by
                rw [hsp]
                exact List.mem_cons_self p0 rest
              have hcs : c ∈ (pyStrip line).data := mem_of_token_pySplitWs hp0 hc
              have hcl : c ∈ line.data := mem_of_mem_pyStripData hcs
              have hdc : pyIsDigitChar c = true := by
                have := hdig.2
                simp only [List.all_eq_true] at this
                exact this c hc
              exact hline c hcl hdc
            have hint : pyInt? p0 =
                some (p0.data.foldl (fun acc c => 10 * acc + (c.toNat - 48)) 0) := by
              simp [pyInt?, hdig.1, hall]
            rw [hint]
            rfl
          · rw [if_neg hdig]
            rfl
    · rw [if_neg hst]
      rfl

theorem stepLine_isSome (parsed : ParsedConfig) (sec : CfgSection) (line : String)
    (hline : ∀ c ∈ line.data, pyIsDigitChar c = true → c.isDigit = true) :
    (stepLine parsed sec line).isSome = true := by
  simp only [stepLine]
  cases h1 : matchHostname line with
  | some name => rfl
  | none =>
  cases h2 : matchInterface line with
  | some iname => rfl
  | none =>
  cases h3 : matchRouterOspf line with
  | some pidStr =>
    dsimp only
    obtain ⟨l1, r1, ht1⟩ := matchRouterOspf_digits h3
    obtain ⟨n1, hn1⟩ := pyInt_of_takeDigits1 ht1
    rw [hn1]
    rfl
  | none =>
  cases h4 : matchAclNamed line with
  | some p =>
    obtain ⟨kind, aname⟩ := p
    rfl
  | none =>
  cases h5 : matchEnableSecret line with
  | some p =>
    obtain ⟨stypeStr, shash⟩ := p
    dsimp only
    obtain ⟨l1, r1, ht1⟩ := matchEnableSecret_digits h5
    obtain ⟨n1, hn1⟩ := pyInt_of_takeDigits1 ht1
    rw [hn1]
    rfl
  | none =>
  cases h6 : matchUsername line with
  | some q =>
    obtain ⟨uname, q2⟩ := q
    obtain ⟨privStr, q3⟩ := q2
    obtain ⟨stypeStr, shash⟩ := q3
    dsimp only
    obtain ⟨hpriv, l2, r2, ht2⟩ := matchUsername_digits h6
    obtain ⟨n2, hn2⟩ := pyInt_of_takeDigits1 ht2
    rcases hpriv with hnone | ⟨p, hp, l3, r3, ht3⟩
    · subst hnone
      dsimp only
      rw [hn2]
      rfl
    · subst hp
      dsimp only
      obtain ⟨n3, hn3⟩ := pyInt_of_takeDigits1 ht3
      rw [hn3]
      dsimp only [Option.map]
      rw [hn2]
      rfl
  | none => exact stepLineSection_isSome parsed sec line hline

theorem foldlM_stepLine_isSome :
    ∀ (lines : List String) (st : ParsedConfig × CfgSection),
      (∀ line ∈ lines, ∀ c ∈ line.data, pyIsDigitChar c = true → c.isDigit = true) →
      (lines.foldlM (fun (st : ParsedConfig × CfgSection) line =>
        stepLine st.1 st.2 line) st).isSome = true := by
  intro lines
  induction lines with
  | nil =>
    intro st h
    rfl
  | cons l ls ih =>
    intro st h
    have h1 := stepLine_isSome st.1 st.2 l (h l (List.mem_cons_self l ls))
    cases hs : stepLine st.1 st.2 l with
    | none =>
      rw [hs] at h1
      exact absurd h1 (by simp)
    | some st2 =>
      have : (l :: ls).foldlM (fun (st : ParsedConfig × CfgSection) line =>
          stepLine st.1 st.2 line) st = ls.foldlM (fun (st : ParsedConfig × CfgSection) line =>
          stepLine st.1 st.2 line) st2 := by
        rw [List.foldlM_cons, hs]
        rfl
      rw [this]
      exact ih st2 (fun line hl => h line (List.mem_cons_of_mem l hl))

/-- C10 counterexample.  The superscript-two character passes the digit
guard the parser uses for numbered ACL entries (Python str.isdigit is true
for it) but is rejected by the integer conversion that guard protects
(Python int() raises ValueError on it), so parse_running_config is not
total: a config whose ACL section contains a token made of such a
character raises instead of returning a ParsedConfig. -/
theorem C10_counterexample_superscript_digit :
    pyIsDigitChar (Char.ofNat 178) = true ∧
    pyInt? (String.mk [Char.ofNat 178]) = none ∧
    parse_running_config
      ("ip access-list extended FOO\n " ++ String.mk [Char.ofNat 178]) = none := by
  decide

/-- C10 (amended).  parse_running_config never raises on any input whose
isdigit-true characters are all ASCII decimal digits (in particular on any
ASCII input: CLI banners, prompts, partial or garbled lines included), and
a line matching none of the recognised patterns is skipped without
affecting already-parsed state: at top level the parse step returns the
parsed config unchanged, only running the section-exit check on the line.
(The unrestricted totality stated by the claim is false: the numbered-ACL
digit guard admits non-decimal digit characters that the guarded integer
conversion rejects; see the counterexample.) -/
theorem C10_parse_totality_amended (raw : String) (parsed : ParsedConfig) (line : String) :
    ((∀ c ∈ raw.data, pyIsDigitChar c = true → c.isDigit = true) →
      (parse_running_config raw).isSome = true) ∧
    (matchHostname line = none → matchInterface line = none →
     matchRouterOspf line = none → matchAclNamed line = none →
     matchEnableSecret line = none → matchUsername line = none →
      stepLine parsed .top line = some (parsed, sectionPop .top line)) := by
  constructor
  · intro hok
    have hlines : ∀ l ∈ pySplitLines (_clean_config_output raw),
        ∀ c ∈ l.data, pyIsDigitChar c = true → c.isDigit = true := by
      intro l hl c hc hd
      rcases clean_config_chars (mem_line_pySplitLines hl hc) with hr | hnl
      · exact hok c hr hd
      · subst hnl
        exact absurd hd (by decide)
    have hf := foldlM_stepLine_isSome (pySplitLines (_clean_config_output raw))
      ({}, CfgSection.top) hlines
    simp only [parse_running_config]
    cases hfd : (pySplitLines (_clean_config_output raw)).foldlM
        (fun (st : ParsedConfig × CfgSection) line => stepLine st.1 st.2 line)
        ({}, CfgSection.top) with
    | none =>
      rw [hfd] at hf
      exact absurd hf (by simp)
    | some st => rfl
  · intro h1 h2 h3 h4 h5 h6
    simp only [stepLine, h1, h2, h3, h4, h5, h6, stepLineSection]

theorem C10_parse_totality_amended_witness :
    (parse_running_config
      "hostname R1\nsome garbage line\ninterface GigabitEthernet1\n ip address 10.0.0.1 255.255.255.0\n!").isSome = true ∧
    stepLine {} .top "some garbage line" =
      some ({}, sectionPop .top "some garbage line") := by
  have h := C10_parse_totality_amended
    "hostname R1\nsome garbage line\ninterface GigabitEthernet1\n ip address 10.0.0.1 255.255.255.0\n!"
    {} "some garbage line"
  exact ⟨h.1 (by decide),
    h.2 (by decide) (by decide) (by decide) (by decide) (by decide) (by decide)⟩
